import Mathlib

/-!
Verification development for the graphics module of an st-based terminal
(`graphics.c`): a shallow embedding in Lean 4 of the data model and the
operations of the kitty-graphics-protocol subset implemented there, with
theorems checking the natural-language specification against the code.

Conventions of the embedding:
* C `int` / `int64_t` / `off_t` values are modelled as `Int`, C unsigned
  values as `Nat`; where C performs a narrowing conversion the reduction
  modulo `2^width` is written explicitly.
* C division on `int64_t` truncates toward zero, so it is modelled with
  `Int.tdiv`.
* Byte strings (C `char *` buffers) are modelled as `List Nat` (byte
  values) or `List Char` where the data is text.
* External effects (filesystem, imlib decoding) are abstracted into
  oracle parameters; an explicit `ram_load_attempted` event records that
  the RAM loader was invoked.
-/

set_option maxRecDepth 4000

namespace StGraphics

/-! ## Tile list (`ImageRect`, `gr_append_imagerect`)

Mirrors `graphics.c` lines 186-199 (struct), 1524-1527 (`gr_getrectbottom`)
and 1576-1643 (`gr_append_imagerect`).  The fixed array
`image_rects[MAX_IMAGE_RECTS]` is modelled as a `List ImageRect` whose
length is the array size; a slot is free iff its `image_id` is 0, exactly
as in the C code. -/

/-- `MAX_IMAGE_RECTS` from graphics.c. -/
def MAX_IMAGE_RECTS : Nat := 20

/-- A rectangular piece of an image to be drawn (struct `ImageRect`). -/
structure ImageRect where
  image_id : Nat
  placement_id : Nat
  x_pix : Int
  y_pix : Int
  start_col : Int
  end_col : Int
  start_row : Int
  end_row : Int
  cw : Int
  ch : Int
  reverse : Int
  deriving Repr, DecidableEq

/-- `gr_getrectbottom`: the bottom pixel coordinate of the rect. -/
def gr_getrectbottom (rect : ImageRect) : Int :=
  rect.y_pix + (rect.end_row - rect.start_row) * rect.ch

/-- The merge condition checked inside the scan loop of
`gr_append_imagerect` for an occupied slot: same image, placement, cell
size and reverse flag; the new stripe is added to the bottom of the
existing rectangle and they are perfectly aligned. -/
def gr_can_merge (rect newr : ImageRect) : Prop :=
  rect.image_id ≠ 0 ∧
  rect.image_id = newr.image_id ∧ rect.placement_id = newr.placement_id ∧
  rect.cw = newr.cw ∧ rect.ch = newr.ch ∧ rect.reverse = newr.reverse ∧
  rect.end_row = newr.start_row ∧ gr_getrectbottom rect = newr.y_pix ∧
  rect.start_col = newr.start_col ∧ rect.end_col = newr.end_col ∧
  rect.x_pix = newr.x_pix

instance : DecidablePred (fun p : ImageRect × ImageRect => gr_can_merge p.1 p.2) :=
  fun _ => by unfold gr_can_merge; infer_instance

instance (rect newr : ImageRect) : Decidable (gr_can_merge rect newr) := by
  unfold gr_can_merge; infer_instance

/-- The merge part of the scan loop of `gr_append_imagerect`: walk the
slots in index order; at the first occupied slot satisfying
`gr_can_merge` extend its `end_row` to the new stripe's and stop.
Returns `none` when no slot can be merged with. -/
def gr_merge_scan (newr : ImageRect) : List ImageRect → Option (List ImageRect)
  | [] => none
  | rect :: rest =>
    if rect.image_id = 0 then
      (gr_merge_scan newr rest).map (rect :: ·)
    else if rect.image_id ≠ newr.image_id ∨ rect.placement_id ≠ newr.placement_id ∨
            rect.cw ≠ newr.cw ∨ rect.ch ≠ newr.ch ∨ rect.reverse ≠ newr.reverse then
      (gr_merge_scan newr rest).map (rect :: ·)
    else if rect.end_row = newr.start_row ∧ gr_getrectbottom rect = newr.y_pix ∧
            rect.start_col = newr.start_col ∧ rect.end_col = newr.end_col ∧
            rect.x_pix = newr.x_pix then
      some ({ rect with end_row := newr.end_row } :: rest)
    else
      (gr_merge_scan newr rest).map (rect :: ·)

/-- The free-slot part of the scan loop: index of the first slot whose
`image_id` is 0. -/
def gr_find_free_idx (rects : List ImageRect) : Option Nat :=
  rects.findIdx? (fun r => r.image_id == 0)

/-- The eviction loop of `gr_append_imagerect`: mirrors
`if (!free_rect || gr_getrectbottom(free_rect) > gr_getrectbottom(rect)) free_rect = rect;`
over all slots, accumulating the chosen index and rect. -/
def gr_pick_rect_to_draw_aux (acc : Option (Nat × ImageRect)) (i : Nat) :
    List ImageRect → Option (Nat × ImageRect)
  | [] => acc
  | rect :: rest =>
    let acc' := match acc with
      | none => some (i, rect)
      | some (j, fr) =>
        if gr_getrectbottom fr > gr_getrectbottom rect then some (i, rect)
        else some (j, fr)
    gr_pick_rect_to_draw_aux acc' (i + 1) rest

/-- The slot chosen for eviction when the table is full. -/
def gr_pick_rect_to_draw (rects : List ImageRect) : Option (Nat × ImageRect) :=
  gr_pick_rect_to_draw_aux none 0 rects

/-- The result of `gr_append_imagerect`: the new contents of the slots,
and the rect that had to be drawn (evicted) to make room, if any. -/
structure AppendRectResult where
  rects : List ImageRect
  drawn : Option ImageRect
  deriving Repr, DecidableEq

/-- `gr_append_imagerect` (graphics.c lines 1576-1643).  The single C
scan loop is split into `gr_merge_scan` (which returns as soon as a
mergeable slot is found, exactly like the C `return`) and
`gr_find_free_idx` (the first free slot, used only when no merge
happened); this split preserves the behavior of the combined loop. -/
def gr_append_imagerect (rects : List ImageRect) (newr : ImageRect) : AppendRectResult :=
  -- "If it's the empty image (image_id=0) or an empty rectangle, do nothing."
  if newr.image_id = 0 ∨ newr.end_col - newr.start_col ≤ 0 ∨
     newr.end_row - newr.start_row ≤ 0 then
    ⟨rects, none⟩
  else
    match gr_merge_scan newr rects with
    | some rects' => ⟨rects', none⟩
    | none =>
      match gr_find_free_idx rects with
      | some i => ⟨rects.set i newr, none⟩
      | none =>
        match gr_pick_rect_to_draw rects with
        | some (i, r) => ⟨rects.set i newr, some r⟩
        | none => ⟨rects, none⟩

/-- Number of occupied slots. -/
def countOccupied (rects : List ImageRect) : Nat :=
  (rects.filter (fun r => r.image_id ≠ 0)).length

/-- If some slot can be merged with, the merge scan extends the first
such slot and leaves everything else untouched. -/
lemma gr_merge_scan_eq_some (newr : ImageRect) :
    ∀ rects : List ImageRect, (∃ r ∈ rects, gr_can_merge r newr) →
    ∃ l₁ r l₂, rects = l₁ ++ r :: l₂ ∧ gr_can_merge r newr ∧
      (∀ x ∈ l₁, ¬ gr_can_merge x newr) ∧
      gr_merge_scan newr rects = some (l₁ ++ { r with end_row := newr.end_row } :: l₂) := by
  intro rects hex
  induction rects with
  | nil => simp at hex
  | cons hd rest ih =>
    by_cases hmerge : gr_can_merge hd newr
    · refine ⟨[], hd, rest, rfl, hmerge, by simp, ?_⟩
      obtain ⟨h0, hid, hpid, hcw, hch, hrev, her, hbot, hsc, hec, hx⟩ := hmerge
      simp only [gr_merge_scan, if_neg h0]
      rw [if_neg (by push_neg; exact ⟨hid, hpid, hcw, hch, hrev⟩),
          if_pos ⟨her, hbot, hsc, hec, hx⟩]
      simp
    · have hex' : ∃ r ∈ rest, gr_can_merge r newr := by
        obtain ⟨r, hr, hm⟩ := hex
        rcases List.mem_cons.mp hr with h | h
        · exact absurd (h ▸ hm) hmerge
        · exact ⟨r, h, hm⟩
      obtain ⟨l₁, r, l₂, hsplit, hm, hfirst, hscan⟩ := ih hex'
      refine ⟨hd :: l₁, r, l₂, by simp [hsplit], hm, ?_, ?_⟩
      · intro x hx
        rcases List.mem_cons.mp hx with h | h
        · exact h ▸ hmerge
        · exact hfirst x h
      · -- head does not merge: all three non-extending branches prepend the head
        by_cases h0 : hd.image_id = 0
        · simp only [gr_merge_scan, if_pos h0, hscan, Option.map_some]
          simp
        · by_cases hids : hd.image_id ≠ newr.image_id ∨ hd.placement_id ≠ newr.placement_id ∨
              hd.cw ≠ newr.cw ∨ hd.ch ≠ newr.ch ∨ hd.reverse ≠ newr.reverse
          · simp only [gr_merge_scan, if_neg h0, if_pos hids, hscan, Option.map_some]
            simp
          · have haligned : ¬(hd.end_row = newr.start_row ∧ gr_getrectbottom hd = newr.y_pix ∧
                hd.start_col = newr.start_col ∧ hd.end_col = newr.end_col ∧
                hd.x_pix = newr.x_pix) := by
              intro hal
              push_neg at hids
              exact hmerge ⟨h0, hids.1, hids.2.1, hids.2.2.1, hids.2.2.2.1, hids.2.2.2.2,
                hal.1, hal.2.1, hal.2.2.1, hal.2.2.2.1, hal.2.2.2.2⟩
            simp only [gr_merge_scan, if_neg h0, if_neg hids, if_neg haligned, hscan,
              Option.map_some]
            simp

/-- If no slot can be merged with, the merge scan fails. -/
lemma gr_merge_scan_eq_none (newr : ImageRect) :
    ∀ rects : List ImageRect, (∀ r ∈ rects, ¬ gr_can_merge r newr) →
    gr_merge_scan newr rects = none := by
  intro rects hno
  induction rects with
  | nil => rfl
  | cons hd rest ih =>
    have hhd := hno hd (List.mem_cons_self _ _)
    have hrest := ih (fun r hr => hno r (List.mem_cons_of_mem _ hr))
    by_cases h0 : hd.image_id = 0
    · simp [gr_merge_scan, if_pos h0, hrest]
    · by_cases hids : hd.image_id ≠ newr.image_id ∨ hd.placement_id ≠ newr.placement_id ∨
          hd.cw ≠ newr.cw ∨ hd.ch ≠ newr.ch ∨ hd.reverse ≠ newr.reverse
      · rw [gr_merge_scan, if_neg h0, if_pos hids, hrest]; rfl
      · have haligned : ¬(hd.end_row = newr.start_row ∧ gr_getrectbottom hd = newr.y_pix ∧
            hd.start_col = newr.start_col ∧ hd.end_col = newr.end_col ∧
            hd.x_pix = newr.x_pix) := by
          intro hal
          push_neg at hids
          exact hhd ⟨h0, hids.1, hids.2.1, hids.2.2.1, hids.2.2.2.1, hids.2.2.2.2,
            hal.1, hal.2.1, hal.2.2.1, hal.2.2.2.1, hal.2.2.2.2⟩
        rw [gr_merge_scan, if_neg h0, if_neg hids, if_neg haligned, hrest]; rfl

/-- The eviction loop, once its accumulator holds a candidate, returns a
candidate whose bottom is minimal among the accumulator and the
remaining slots. -/
lemma gr_pick_aux_some (l : List ImageRect) :
    ∀ (j : Nat) (fr : ImageRect) (i : Nat),
    ∃ j' r', gr_pick_rect_to_draw_aux (some (j, fr)) i l = some (j', r') ∧
      (r' = fr ∨ r' ∈ l) ∧ gr_getrectbottom r' ≤ gr_getrectbottom fr ∧
      ∀ x ∈ l, gr_getrectbottom r' ≤ gr_getrectbottom x := by
  induction l with
  | nil => intro j fr i; exact ⟨j, fr, rfl, Or.inl rfl, le_refl _, by simp⟩
  | cons hd rest ih =>
    intro j fr i
    by_cases hlt : gr_getrectbottom fr > gr_getrectbottom hd
    · obtain ⟨j', r', hres, hmem, hle, hall⟩ := ih i hd (i + 1)
      refine ⟨j', r', ?_, ?_, ?_, ?_⟩
      · simp only [gr_pick_rect_to_draw_aux, if_pos hlt]; exact hres
      · rcases hmem with h | h
        · exact Or.inr (h ▸ List.mem_cons_self _ _)
        · exact Or.inr (List.mem_cons_of_mem _ h)
      · exact le_of_lt (lt_of_le_of_lt hle hlt)
      · intro x hx
        rcases List.mem_cons.mp hx with h | h
        · exact h ▸ hle
        · exact hall x h
    · obtain ⟨j', r', hres, hmem, hle, hall⟩ := ih j fr (i + 1)
      refine ⟨j', r', ?_, ?_, hle, ?_⟩
      · simp only [gr_pick_rect_to_draw_aux, if_neg hlt]; exact hres
      · rcases hmem with h | h
        · exact Or.inl h
        · exact Or.inr (List.mem_cons_of_mem _ h)
      · intro x hx
        rcases List.mem_cons.mp hx with h | h
        · subst h; exact le_trans hle (not_lt.mp hlt)
        · exact hall x h

/-- On a non-empty slot table, the eviction loop picks a slot holding a
rect of minimal bottom coordinate. -/
lemma gr_pick_rect_to_draw_spec (rects : List ImageRect) (hne : rects ≠ []) :
    ∃ i r, gr_pick_rect_to_draw rects = some (i, r) ∧ r ∈ rects ∧
      ∀ x ∈ rects, gr_getrectbottom r ≤ gr_getrectbottom x := by
  match rects, hne with
  | hd :: rest, _ =>
    obtain ⟨j', r', hres, hmem, hle, hall⟩ := gr_pick_aux_some rest 0 hd 1
    refine ⟨j', r', ?_, ?_, ?_⟩
    · simpa [gr_pick_rect_to_draw, gr_pick_rect_to_draw_aux] using hres
    · rcases hmem with h | h
      · exact h ▸ List.mem_cons_self _ _
      · exact List.mem_cons_of_mem _ h
    · intro x hx
      rcases List.mem_cons.mp hx with h | h
      · exact h ▸ hle
      · exact hall x h

/-- C8 (confirmed). Coalescing: if the pending tile list contains a
rectangle of identical style (image, placement, cw, ch, reverse) whose
bottom edge aligns with the new strip's top edge and whose column range
and x position match, then appending the strip only extends the first
such rectangle's `end_row`; nothing is drawn, all other slots are
untouched, and the number of occupied slots does not increase. -/
theorem C8_coalescing (rects : List ImageRect) (newr : ImageRect)
    (hcol : 0 < newr.end_col - newr.start_col)
    (hrow : 0 < newr.end_row - newr.start_row)
    (hex : ∃ r ∈ rects, gr_can_merge r newr) :
    ∃ l₁ r l₂, rects = l₁ ++ r :: l₂ ∧ gr_can_merge r newr ∧
      (∀ x ∈ l₁, ¬ gr_can_merge x newr) ∧
      gr_append_imagerect rects newr =
        ⟨l₁ ++ { r with end_row := newr.end_row } :: l₂, none⟩ ∧
      countOccupied (l₁ ++ { r with end_row := newr.end_row } :: l₂) =
        countOccupied rects := by
  obtain ⟨l₁, r, l₂, hsplit, hm, hfirst, hscan⟩ := gr_merge_scan_eq_some newr rects hex
  have hid : newr.image_id ≠ 0 := by
    obtain ⟨h0, hid, _⟩ := hm
    exact hid ▸ h0
  refine ⟨l₁, r, l₂, hsplit, hm, hfirst, ?_, ?_⟩
  · have hguard : ¬(newr.image_id = 0 ∨ newr.end_col - newr.start_col ≤ 0 ∨
        newr.end_row - newr.start_row ≤ 0) := by
      push_neg
      exact ⟨hid, hcol, hrow⟩
    simp only [gr_append_imagerect, if_neg hguard, hscan]
  · have : ({ r with end_row := newr.end_row } : ImageRect).image_id = r.image_id := rfl
    simp only [hsplit, countOccupied, List.filter_append, List.length_append,
      List.filter_cons, this]
    rcases Decidable.em (r.image_id ≠ 0) with h | h <;> simp [h]

/-- A rectangle already in the tile list, used in the C8 witness. -/
def mergeBase : ImageRect := ⟨5, 7, 0, 0, 2, 4, 0, 3, 10, 20, 0⟩

/-- A strip immediately below `mergeBase` of identical style. -/
def mergeStrip : ImageRect := ⟨5, 7, 0, 60, 2, 4, 3, 5, 10, 20, 0⟩

/-- C8 witness: a concrete strip merged into a concrete one-slot list. -/
theorem C8_coalescing_witness :
    ∃ l₁ r l₂, [mergeBase] = l₁ ++ r :: l₂ ∧ gr_can_merge r mergeStrip ∧
      (∀ x ∈ l₁, ¬ gr_can_merge x mergeStrip) ∧
      gr_append_imagerect [mergeBase] mergeStrip =
        ⟨l₁ ++ { r with end_row := mergeStrip.end_row } :: l₂, none⟩ ∧
      countOccupied (l₁ ++ { r with end_row := mergeStrip.end_row } :: l₂) =
        countOccupied [mergeBase] :=
  C8_coalescing [mergeBase] mergeStrip (by decide) (by decide)
    ⟨mergeBase, by decide⟩

/-- A full table of 20 occupied slots with strictly increasing bottoms
(`y_pix = k`, each one row of height 1, so the bottom is `k + 1`). -/
def rectsFull20 : List ImageRect :=
  (List.range MAX_IMAGE_RECTS).map (fun k =>
    ⟨1, 1, 0, (k : Int), 0, 1, 0, 1, 1, 1, 0⟩)

/-- A strip that cannot be merged with any slot of `rectsFull20`
(different image id). -/
def newRect2 : ImageRect := ⟨2, 1, 0, 100, 0, 1, 0, 1, 1, 1, 0⟩

/-- C4 counterexample: with all 20 slots occupied and no merge possible,
the rect that is drawn and evicted is the one with the SMALLEST bottom
coordinate (`y_pix = 0`, bottom 1), even though a stored rect with a
strictly larger bottom (`y_pix = 19`, bottom 20) exists — contradicting
the claim that the evicted rect is the one with the largest bottom. -/
theorem C4_eviction_counterexample :
    (gr_append_imagerect rectsFull20 newRect2).drawn =
      some ⟨1, 1, 0, 0, 0, 1, 0, 1, 1, 1, 0⟩ ∧
    (⟨1, 1, 0, 19, 0, 1, 0, 1, 1, 1, 0⟩ : ImageRect) ∈ rectsFull20 ∧
    gr_getrectbottom ⟨1, 1, 0, 0, 0, 1, 0, 1, 1, 1, 0⟩ <
      gr_getrectbottom ⟨1, 1, 0, 19, 0, 1, 0, 1, 1, 1, 0⟩ := by
  refine ⟨by decide, by decide, by decide⟩

/-- C4 (amended). When the new rect has a non-zero image id and positive
area, cannot be merged with any stored rect, and all `MAX_IMAGE_RECTS`
slots are occupied, the rect that is drawn and evicted is a stored rect
with the SMALLEST bottom coordinate
`y_pix + (end_row - start_row) * ch` (highest on screen), and the new
rect takes its slot. -/
theorem C4_eviction_min_bottom (rects : List ImageRect) (newr : ImageRect)
    (hlen : rects.length = MAX_IMAGE_RECTS)
    (hid : newr.image_id ≠ 0)
    (hcol : 0 < newr.end_col - newr.start_col)
    (hrow : 0 < newr.end_row - newr.start_row)
    (hocc : ∀ r ∈ rects, r.image_id ≠ 0)
    (hnomerge : ∀ r ∈ rects, ¬ gr_can_merge r newr) :
    ∃ i r, gr_pick_rect_to_draw rects = some (i, r) ∧
      gr_append_imagerect rects newr = ⟨rects.set i newr, some r⟩ ∧
      r ∈ rects ∧ ∀ x ∈ rects, gr_getrectbottom r ≤ gr_getrectbottom x := by
  have hne : rects ≠ [] := by
    intro h
    rw [h] at hlen
    simp [MAX_IMAGE_RECTS] at hlen
  obtain ⟨i, r, hpick, hmem, hmin⟩ := gr_pick_rect_to_draw_spec rects hne
  refine ⟨i, r, hpick, ?_, hmem, hmin⟩
  have hguard : ¬(newr.image_id = 0 ∨ newr.end_col - newr.start_col ≤ 0 ∨
      newr.end_row - newr.start_row ≤ 0) := by
    push_neg
    exact ⟨hid, hcol, hrow⟩
  have hfree : gr_find_free_idx rects = none := by
    rw [gr_find_free_idx, List.findIdx?_eq_none_iff]
    intro x hx
    simpa using hocc x hx
  simp only [gr_append_imagerect, if_neg hguard,
    gr_merge_scan_eq_none newr rects hnomerge, hfree, hpick]

/-- C4 amended-theorem witness: the eviction at the concrete full table. -/
theorem C4_eviction_min_bottom_witness :
    ∃ i r, gr_pick_rect_to_draw rectsFull20 = some (i, r) ∧
      gr_append_imagerect rectsFull20 newRect2 = ⟨rectsFull20.set i newRect2, some r⟩ ∧
      r ∈ rectsFull20 ∧
      ∀ x ∈ rectsFull20, gr_getrectbottom r ≤ gr_getrectbottom x :=
  C4_eviction_min_bottom rectsFull20 newRect2 (by decide) (by decide) (by decide)
    (by decide) (by decide) (by decide)

/-! ## Data model (`Image`, `ImagePlacement`, enums)

Mirrors the structs and enums of graphics.c lines 55-184.  Pointers to
imlib objects and `FILE *` handles are modelled as booleans recording
presence; the placement's back-pointer to its image is dropped (the
store owns both).  `atime` is an abstract monotonic timestamp. -/

/-- `ScaleMode` values (C enum, stored in a `char`). -/
def SCALE_MODE_UNSET : Nat := 0
def SCALE_MODE_FILL : Nat := 1
def SCALE_MODE_CONTAIN : Nat := 2
def SCALE_MODE_NONE : Nat := 3
def SCALE_MODE_NONE_OR_CONTAIN : Nat := 4

/-- `ImageStatus` (C enum). -/
inductive ImageStatus where
  | uninitialized
  | uploading
  | uploadingError
  | uploadingSuccess
  | ramLoadingError
  | ramLoadingSuccess
  deriving Repr, DecidableEq

/-- The numeric value of a status, as in the C enum; the code compares
statuses with `<`. -/
def ImageStatus.code : ImageStatus → Nat
  | .uninitialized => 0
  | .uploading => 1
  | .uploadingError => 2
  | .uploadingSuccess => 3
  | .ramLoadingError => 4
  | .ramLoadingSuccess => 5

/-- `ImageUploadingFailure` (C enum; 0 means no failure). -/
inductive UploadingFailure where
  | noError
  | overSizeLimit
  | cannotOpenCachedFile
  | unexpectedSize
  | cannotCopyFile
  deriving Repr, DecidableEq

/-- Struct `ImagePlacement`.  The C field `protected` is a Lean keyword
and is modelled as `protected_flag`. -/
structure ImagePlacement where
  placement_id : Nat
  atime : Int
  protected_flag : Bool
  virtual : Bool
  scale_mode : Nat
  rows : Nat
  cols : Nat
  src_pix_x : Int
  src_pix_y : Int
  src_pix_width : Int
  src_pix_height : Int
  scaled_image : Bool
  scaled_cw : Nat
  scaled_ch : Nat
  do_not_move_cursor : Bool
  deriving Repr, DecidableEq

/-- Struct `Image`.  `open_file` and `original_image` record presence of
the C `FILE *` sink and the imlib RAM object. -/
structure Image where
  image_id : Nat
  query_id : Nat
  image_number : Nat
  atime : Int
  global_command_index : Nat
  disk_size : Nat
  expected_size : Nat
  format : Int
  compression : Nat
  pix_width : Int
  pix_height : Int
  status : ImageStatus
  uploading_failure : UploadingFailure
  quiet : Nat
  open_file : Bool
  original_image : Bool
  placements : List ImagePlacement
  default_placement : Nat
  initial_placement_id : Nat
  deriving Repr, DecidableEq

/-- C conversion of a (possibly 64-bit) signed value to `uint16_t`:
reduction modulo `2^16`. -/
def uint16_of_int (x : Int) : Nat := (x % 65536).toNat

/-- `ceil_div` from graphics.c: `(a + b - 1) / b` with C (truncating)
`int64_t` division. -/
def ceil_div (a b : Int) : Int := (a + b - 1).tdiv b

/-- For positive arguments `ceil_div a b` is the least `n` with
`a ≤ n * b`, i.e. the mathematical ceiling of `a / b`. -/
lemma ceil_div_least (a b : Int) (ha : 0 < a) (hb : 0 < b) :
    a ≤ ceil_div a b * b ∧ ∀ m : Int, a ≤ m * b → ceil_div a b ≤ m := by
  have hnn : (0:Int) ≤ a + b - 1 := by omega
  have htd : (a + b - 1).tdiv b = (a + b - 1) / b := Int.tdiv_eq_ediv hnn (by omega)
  unfold ceil_div
  rw [htd]
  constructor
  · have h1 := Int.ediv_add_emod (a + b - 1) b
    have h2 := Int.emod_lt_of_pos (a + b - 1) hb
    have h3 := Int.emod_nonneg (a + b - 1) (by omega : b ≠ 0)
    nlinarith
  · intro m hm
    have h4 : a + b - 1 < (m + 1) * b := by nlinarith
    have h5 := (Int.ediv_lt_iff_lt_mul hb).mpr h4
    omega

/-- A positive `ceil_div` below `2^16` survives the `uint16_t`
conversion unchanged. -/
lemma uint16_of_int_eq (x : Int) (h0 : 0 ≤ x) (h1 : x < 65536) :
    (uint16_of_int x : Int) = x := by
  unfold uint16_of_int
  rw [Int.emod_eq_of_lt h0 h1, Int.toNat_of_nonneg h0]

/-! ## Placement sizing (`gr_infer_placement_size_maybe`)

Mirrors graphics.c lines 720-802.  The clamping prefix (lines 727-752)
is split into `gr_clamp_src_rect`; `gr_infer_placement_size_maybe`
applies it first, exactly as the C function body does. -/

/-- The source-rectangle sanitation prefix of
`gr_infer_placement_size_maybe`: truncate negative values to zero, clamp
the origin to the image bounds, and make a zero or overflowing size
extend exactly to the image edge. -/
def gr_clamp_src_rect (p : ImagePlacement) (img : Image) : ImagePlacement :=
  let p := if p.src_pix_x < 0 then { p with src_pix_x := 0 } else p
  let p := if p.src_pix_y < 0 then { p with src_pix_y := 0 } else p
  let p := if p.src_pix_width < 0 then { p with src_pix_width := 0 } else p
  let p := if p.src_pix_height < 0 then { p with src_pix_height := 0 } else p
  let p := if p.src_pix_x > img.pix_width then { p with src_pix_x := img.pix_width } else p
  let p := if p.src_pix_y > img.pix_height then { p with src_pix_y := img.pix_height } else p
  let p := if p.src_pix_width = 0 ∨ p.src_pix_x + p.src_pix_width > img.pix_width then
      { p with src_pix_width := img.pix_width - p.src_pix_x } else p
  let p := if p.src_pix_height = 0 ∨ p.src_pix_y + p.src_pix_height > img.pix_height then
      { p with src_pix_height := img.pix_height - p.src_pix_y } else p
  p

/-- `gr_infer_placement_size_maybe` (graphics.c lines 726-802).  `img`
stands for `placement->image`; `current_cw`/`current_ch` are the global
cell metrics.  Assignments to the `uint16_t` fields `cols`/`rows` go
through the C narrowing conversion. -/
def gr_infer_placement_size_maybe (p : ImagePlacement) (img : Image)
    (current_cw current_ch : Int) : ImagePlacement :=
  let p := gr_clamp_src_rect p img
  if p.cols ≠ 0 ∧ p.rows ≠ 0 then p
  else if p.src_pix_width = 0 ∨ p.src_pix_height = 0 then p
  else if current_cw = 0 ∨ current_ch = 0 then p
  else if p.cols = 0 ∧ p.rows = 0 then
    -- "If no size is specified, use the image size."
    { p with cols := uint16_of_int (ceil_div p.src_pix_width current_cw),
             rows := uint16_of_int (ceil_div p.src_pix_height current_ch) }
  else if p.scale_mode = SCALE_MODE_CONTAIN then
    if p.cols = 0 then
      { p with cols := uint16_of_int (ceil_div
          (p.src_pix_width * (p.rows : Int) * current_ch)
          (p.src_pix_height * current_cw)) }
    else if p.rows = 0 then
      { p with rows := uint16_of_int (ceil_div
          (p.src_pix_height * (p.cols : Int) * current_cw)
          (p.src_pix_width * current_ch)) }
    else p
  else
    let p := if p.cols = 0 then
        { p with cols := uint16_of_int (ceil_div p.src_pix_width current_cw) } else p
    let p := if p.rows = 0 then
        { p with rows := uint16_of_int (ceil_div p.src_pix_height current_ch) } else p
    p

/-- The `uint16_t`-converted `ceil_div` keeps the least-solution
characterization as long as it fits in 16 bits. -/
lemma uint16_ceil_div_least (a b : Int) (ha : 0 < a) (hb : 0 < b)
    (hlt : ceil_div a b < 65536) :
    a ≤ (uint16_of_int (ceil_div a b) : Int) * b ∧
    ∀ m : Int, a ≤ m * b → (uint16_of_int (ceil_div a b) : Int) ≤ m := by
  obtain ⟨h1, h2⟩ := ceil_div_least a b ha hb
  have hpos : 0 < ceil_div a b := by nlinarith
  rw [uint16_of_int_eq _ (le_of_lt hpos) hlt]
  exact ⟨h1, h2⟩

/-- C7 (confirmed).  Sizing inference after clamping (`c` is the clamped
placement, `q` the result of `gr_infer_placement_size_maybe`):
1. both `cols` and `rows` zero, source rect known, cell metrics non-zero
   → `cols`/`rows` are the ceiling divisions `⌈src_w / cw⌉`,
   `⌈src_h / ch⌉`, stated as least-integer characterizations;
2. exactly one of them zero under scale mode Contain → the missing
   dimension is the minimum cell count that fits the specified dimension
   preserving the source aspect ratio (least `m` with
   `src_w * rows * ch ≤ m * (src_h * cw)`, resp. symmetric);
3. exactly one of them zero under any other mode → the missing dimension
   is the independent ceiling division.
The 16-bit bounds make the `uint16_t` narrowing of the C assignment the
identity. -/
theorem C7_placement_size_inference (p : ImagePlacement) (img : Image)
    (cw ch : Int) (hcw : 0 < cw) (hch : 0 < ch)
    (c q : ImagePlacement) (hc : c = gr_clamp_src_rect p img)
    (hq : q = gr_infer_placement_size_maybe p img cw ch) :
    (c.cols = 0 → c.rows = 0 → 0 < c.src_pix_width → 0 < c.src_pix_height →
      ceil_div c.src_pix_width cw < 65536 → ceil_div c.src_pix_height ch < 65536 →
      (c.src_pix_width ≤ (q.cols : Int) * cw ∧
        ∀ m : Int, c.src_pix_width ≤ m * cw → (q.cols : Int) ≤ m) ∧
      (c.src_pix_height ≤ (q.rows : Int) * ch ∧
        ∀ m : Int, c.src_pix_height ≤ m * ch → (q.rows : Int) ≤ m)) ∧
    (c.cols = 0 → c.rows ≠ 0 → c.scale_mode = SCALE_MODE_CONTAIN →
      0 < c.src_pix_width → 0 < c.src_pix_height →
      ceil_div (c.src_pix_width * (c.rows : Int) * ch) (c.src_pix_height * cw) < 65536 →
      q.rows = c.rows ∧
      c.src_pix_width * (c.rows : Int) * ch ≤ (q.cols : Int) * (c.src_pix_height * cw) ∧
      ∀ m : Int, c.src_pix_width * (c.rows : Int) * ch ≤ m * (c.src_pix_height * cw) →
        (q.cols : Int) ≤ m) ∧
    (c.rows = 0 → c.cols ≠ 0 → c.scale_mode = SCALE_MODE_CONTAIN →
      0 < c.src_pix_width → 0 < c.src_pix_height →
      ceil_div (c.src_pix_height * (c.cols : Int) * cw) (c.src_pix_width * ch) < 65536 →
      q.cols = c.cols ∧
      c.src_pix_height * (c.cols : Int) * cw ≤ (q.rows : Int) * (c.src_pix_width * ch) ∧
      ∀ m : Int, c.src_pix_height * (c.cols : Int) * cw ≤ m * (c.src_pix_width * ch) →
        (q.rows : Int) ≤ m) ∧
    (c.cols = 0 → c.rows ≠ 0 → c.scale_mode ≠ SCALE_MODE_CONTAIN →
      0 < c.src_pix_width → 0 < c.src_pix_height →
      ceil_div c.src_pix_width cw < 65536 →
      q.rows = c.rows ∧ c.src_pix_width ≤ (q.cols : Int) * cw ∧
      ∀ m : Int, c.src_pix_width ≤ m * cw → (q.cols : Int) ≤ m) ∧
    (c.rows = 0 → c.cols ≠ 0 → c.scale_mode ≠ SCALE_MODE_CONTAIN →
      0 < c.src_pix_width → 0 < c.src_pix_height →
      ceil_div c.src_pix_height ch < 65536 →
      q.cols = c.cols ∧ c.src_pix_height ≤ (q.rows : Int) * ch ∧
      ∀ m : Int, c.src_pix_height ≤ m * ch → (q.rows : Int) ≤ m) := by
  have hq' : q = (
      if c.cols ≠ 0 ∧ c.rows ≠ 0 then c
      else if c.src_pix_width = 0 ∨ c.src_pix_height = 0 then c
      else if cw = 0 ∨ ch = 0 then c
      else if c.cols = 0 ∧ c.rows = 0 then
        { c with cols := uint16_of_int (ceil_div c.src_pix_width cw),
                 rows := uint16_of_int (ceil_div c.src_pix_height ch) }
      else if c.scale_mode = SCALE_MODE_CONTAIN then
        if c.cols = 0 then
          { c with cols := uint16_of_int (ceil_div
              (c.src_pix_width * (c.rows : Int) * ch)
              (c.src_pix_height * cw)) }
        else if c.rows = 0 then
          { c with rows := uint16_of_int (ceil_div
              (c.src_pix_height * (c.cols : Int) * cw)
              (c.src_pix_width * ch)) }
        else c
      else
        let c' := if c.cols = 0 then
            { c with cols := uint16_of_int (ceil_div c.src_pix_width cw) } else c
        if c'.rows = 0 then
            { c' with rows := uint16_of_int (ceil_div c'.src_pix_height ch) } else c') := by
    rw [hq, gr_infer_placement_size_maybe, ← hc]
  clear hq
  refine ⟨?_, ?_, ?_, ?_, ?_⟩
  · intro h1 h2 hw hh hb1 hb2
    rw [hq', if_neg (by simp [h1]), if_neg (by omega), if_neg (by omega), if_pos ⟨h1, h2⟩]
    exact ⟨uint16_ceil_div_least _ _ hw hcw hb1, uint16_ceil_div_least _ _ hh hch hb2⟩
  · intro h1 h2 hm hw hh hb
    have ha : 0 < c.src_pix_width * (c.rows : Int) * ch := by
      have : 0 < (c.rows : Int) := by exact_mod_cast Nat.pos_of_ne_zero h2
      positivity
    have hbpos : 0 < c.src_pix_height * cw := by positivity
    rw [hq', if_neg (by simp [h1]), if_neg (by omega), if_neg (by omega),
        if_neg (by simp [h2]), if_pos hm, if_pos h1]
    exact ⟨rfl, uint16_ceil_div_least _ _ ha hbpos hb⟩
  · intro h1 h2 hm hw hh hb
    have ha : 0 < c.src_pix_height * (c.cols : Int) * cw := by
      have : 0 < (c.cols : Int) := by exact_mod_cast Nat.pos_of_ne_zero h2
      positivity
    have hbpos : 0 < c.src_pix_width * ch := by positivity
    rw [hq', if_neg (by simp [h1]), if_neg (by omega), if_neg (by omega),
        if_neg (by simp [h2]), if_pos hm, if_neg h2, if_pos h1]
    exact ⟨rfl, uint16_ceil_div_least _ _ ha hbpos hb⟩
  · intro h1 h2 hm hw hh hb
    rw [hq', if_neg (by simp [h1]), if_neg (by omega), if_neg (by omega),
        if_neg (by simp [h2]), if_neg hm]
    simp only [if_pos h1]
    rw [if_neg (by simpa using h2)]
    exact ⟨rfl, uint16_ceil_div_least _ _ hw hcw hb⟩
  · intro h1 h2 hm hw hh hb
    rw [hq', if_neg (by simp [h1]), if_neg (by omega), if_neg (by omega),
        if_neg (by simp [h2]), if_neg hm]
    simp only [if_neg h2]
    rw [if_pos h1]
    exact ⟨rfl, uint16_ceil_div_least _ _ hh hch hb⟩

/-- A concrete placement for the C7 witness: no size given, source rect
unset (extends to the whole 25×45 image). -/
def sizingPlacement : ImagePlacement :=
  ⟨7, 0, false, true, SCALE_MODE_CONTAIN, 0, 0, 0, 0, 0, 0, false, 0, 0, false⟩

/-- A concrete 25×45 image for the C7 witness. -/
def sizingImage : Image :=
  ⟨1, 0, 0, 0, 0, 16, 16, 32, 0, 25, 45, .ramLoadingSuccess, .noError, 0,
   false, true, [], 0, 0⟩

/-- C7 witness: at cell metrics 10×20 the inferred size of a 25×45
source is the ceiling divisions (both-zero branch of the theorem). -/
theorem C7_placement_size_inference_witness :
    ((gr_clamp_src_rect sizingPlacement sizingImage).src_pix_width ≤
      ((gr_infer_placement_size_maybe sizingPlacement sizingImage 10 20).cols : Int) * 10 ∧
      ∀ m : Int, (gr_clamp_src_rect sizingPlacement sizingImage).src_pix_width ≤ m * 10 →
        ((gr_infer_placement_size_maybe sizingPlacement sizingImage 10 20).cols : Int) ≤ m) ∧
    ((gr_clamp_src_rect sizingPlacement sizingImage).src_pix_height ≤
      ((gr_infer_placement_size_maybe sizingPlacement sizingImage 10 20).rows : Int) * 20 ∧
      ∀ m : Int, (gr_clamp_src_rect sizingPlacement sizingImage).src_pix_height ≤ m * 20 →
        ((gr_infer_placement_size_maybe sizingPlacement sizingImage 10 20).rows : Int) ≤ m) :=
  (C7_placement_size_inference sizingPlacement sizingImage 10 20 (by decide) (by decide)
      _ _ rfl rfl).1
    (by decide) (by decide) (by decide) (by decide) (by decide) (by decide)

/-! ## Base64 codec (`gr_base64dec`)

Mirrors graphics.c lines 2580-2630.  Byte strings are `List Nat` (the
bytes before the terminating NUL).  The C while loop is modelled with a
fuel parameter initialized to the input length; each iteration of the C
loop consumes at least one input byte, so this fuel is never exhausted.
`gr_base64_getc` and the digits table are modelled byte-exactly; the
decoded bytes are computed with the same shift/mask expressions as the C
code (the sextets are non-negative whenever they are used, so `Int.toNat`
is the identity on them).  `isprint` is the POSIX-locale predicate.

The encoder `gr_base64enc` is not part of the repository; it is modelled
from the spec ("standard base64 encoding", property 5 of §8), with
`gr_base64enc_nopad` the same encoding with trailing `'='` omitted. -/


/-- C `isprint` in the POSIX locale: the printable bytes 0x20..0x7E. -/
def c_isprint (c : Nat) : Bool := 32 ≤ c && c ≤ 126

/-- The `gr_base64_digits` table as a function of the byte value. -/
def gr_base64_digits (c : Nat) : Int :=
  if c = 43 then 62
  else if c = 47 then 63
  else if 48 ≤ c ∧ c ≤ 57 then (c : Int) - 48 + 52
  else if c = 61 then -1
  else if 65 ≤ c ∧ c ≤ 90 then (c : Int) - 65
  else if 97 ≤ c ∧ c ≤ 122 then (c : Int) - 97 + 26
  else 0

/-- `gr_base64_getc`: skip non-printable bytes; at the string end return
`'='` (61) without consuming. -/
def gr_base64_getc : List Nat → Nat × List Nat
  | [] => (61, [])
  | c :: rest =>
    if c = 0 then (61, c :: rest)
    else if c_isprint c then (c, rest)
    else gr_base64_getc rest

/-- One-quartet-per-step loop of `gr_base64dec`, with fuel. -/
def gr_base64dec_loop : Nat → List Nat → List Nat
  | 0, _ => []
  | _ + 1, [] => []
  | fuel + 1, c :: rest =>
    if c = 0 then []
    else
      let p1 := gr_base64_getc (c :: rest)
      let p2 := gr_base64_getc p1.2
      let p3 := gr_base64_getc p2.2
      let p4 := gr_base64_getc p3.2
      let a := gr_base64_digits p1.1
      let b := gr_base64_digits p2.1
      if a = -1 ∨ b = -1 then []
      else
        let byte1 := (a.toNat <<< 2) ||| ((b.toNat &&& 48) >>> 4)
        let cc := gr_base64_digits p3.1
        if cc = -1 then [byte1]
        else
          let byte2 := ((b.toNat &&& 15) <<< 4) ||| ((cc.toNat &&& 60) >>> 2)
          let d := gr_base64_digits p4.1
          if d = -1 then [byte1, byte2]
          else
            let byte3 := ((cc.toNat &&& 3) <<< 6) ||| d.toNat
            byte1 :: byte2 :: byte3 :: gr_base64dec_loop fuel p4.2

def gr_base64dec (src : List Nat) : List Nat := gr_base64dec_loop src.length src

def base64_alphabet_char (s : Nat) : Nat :=
  if s < 26 then 65 + s
  else if s < 52 then 97 + (s - 26)
  else if s < 62 then 48 + (s - 52)
  else if s = 62 then 43
  else 47

def gr_base64enc : List Nat → List Nat
  | [] => []
  | [b1] => [base64_alphabet_char (b1 / 4), base64_alphabet_char ((b1 % 4) * 16), 61, 61]
  | [b1, b2] => [base64_alphabet_char (b1 / 4), base64_alphabet_char ((b1 % 4) * 16 + b2 / 16),
                 base64_alphabet_char ((b2 % 16) * 4), 61]
  | b1 :: b2 :: b3 :: rest =>
      base64_alphabet_char (b1 / 4) :: base64_alphabet_char ((b1 % 4) * 16 + b2 / 16) ::
      base64_alphabet_char ((b2 % 16) * 4 + b3 / 64) :: base64_alphabet_char (b3 % 64) ::
      gr_base64enc rest

def gr_base64enc_nopad : List Nat → List Nat
  | [] => []
  | [b1] => [base64_alphabet_char (b1 / 4), base64_alphabet_char ((b1 % 4) * 16)]
  | [b1, b2] => [base64_alphabet_char (b1 / 4), base64_alphabet_char ((b1 % 4) * 16 + b2 / 16),
                 base64_alphabet_char ((b2 % 16) * 4)]
  | b1 :: b2 :: b3 :: rest =>
      base64_alphabet_char (b1 / 4) :: base64_alphabet_char ((b1 % 4) * 16 + b2 / 16) ::
      base64_alphabet_char ((b2 % 16) * 4 + b3 / 64) :: base64_alphabet_char (b3 % 64) ::
      gr_base64enc_nopad rest

-- basic facts
lemma alpha_lt (s : Nat) (hs : s < 64) : base64_alphabet_char s ≠ 0 ∧
    c_isprint (base64_alphabet_char s) = true ∧
    gr_base64_digits (base64_alphabet_char s) = (s : Int) := by
  revert hs; revert s
  show ∀ s < 64, _ ≠ 0 ∧ _
  decide

lemma getc_eq (c : Nat) (t : List Nat) (h0 : c ≠ 0) (hp : c_isprint c = true) :
    gr_base64_getc (c :: t) = (c, t) := by
  unfold gr_base64_getc
  rw [if_neg h0, if_pos hp]

lemma getc_pad (t : List Nat) : gr_base64_getc (61 :: t) = (61, t) :=
  getc_eq 61 t (by decide) (by decide)

lemma getc_nil : gr_base64_getc [] = (61, []) := rfl

lemma getc_alpha (s : Nat) (hs : s < 64) (t : List Nat) :
    gr_base64_getc (base64_alphabet_char s :: t) = (base64_alphabet_char s, t) :=
  getc_eq _ t (alpha_lt s hs).1 (alpha_lt s hs).2.1

lemma digits_pad : gr_base64_digits 61 = -1 := by decide

lemma digits_alpha_ne (s : Nat) (hs : s < 64) :
    gr_base64_digits (base64_alphabet_char s) ≠ -1 := by
  rw [(alpha_lt s hs).2.2]; omega

lemma digits_alpha_toNat (s : Nat) (hs : s < 64) :
    (gr_base64_digits (base64_alphabet_char s)).toNat = s := by
  rw [(alpha_lt s hs).2.2]; exact Int.toNat_natCast s

lemma loop_nil (fuel : Nat) : gr_base64dec_loop fuel [] = [] := by
  cases fuel <;> rfl

-- bitwise reconstruction lemmas (proved in test4, reproduced)
lemma b64_bit1 : ∀ r < 4, ∀ q < 16, ((r * 16 + q) &&& 48) = r * 16 := by decide
lemma b64_bit2 : ∀ r < 4, ∀ q < 16, ((r * 16 + q) &&& 15) = q := by decide
lemma b64_bit3 : ∀ r < 16, ∀ q < 4, ((r * 4 + q) &&& 60) = r * 4 := by decide
lemma b64_bit4 : ∀ r < 16, ∀ q < 4, ((r * 4 + q) &&& 3) = q := by decide
lemma b64_bit5 : ∀ q < 64, ∀ r < 4, ((q <<< 2) ||| r) = q * 4 + r := by decide
lemma b64_bit6 : ∀ q < 16, ∀ r < 16, ((q <<< 4) ||| r) = q * 16 + r := by decide
lemma b64_bit7 : ∀ q < 4, ∀ r < 64, ((q <<< 6) ||| r) = q * 64 + r := by decide
lemma b64_bit8 : ∀ r < 4, (r * 16) >>> 4 = r := by decide
lemma b64_bit9 : ∀ r < 16, (r * 4) >>> 2 = r := by decide

lemma byte1_eq (b1 b2 : Nat) (h1 : b1 < 256) (h2 : b2 < 256) :
    ((b1 / 4) <<< 2) ||| ((((b1 % 4) * 16 + b2 / 16) &&& 48) >>> 4) = b1 := by
  rw [b64_bit1 (b1 % 4) (by omega) (b2 / 16) (by omega), b64_bit8 (b1 % 4) (by omega),
      b64_bit5 (b1 / 4) (by omega) (b1 % 4) (by omega)]
  omega

lemma byte2_eq (b2 b3 : Nat) (h2 : b2 < 256) (h3 : b3 < 256) (r : Nat) (hr : r < 4) :
    (((r * 16 + b2 / 16) &&& 15) <<< 4) |||
      ((((b2 % 16) * 4 + b3 / 64) &&& 60) >>> 2) = b2 := by
  rw [b64_bit2 r hr (b2 / 16) (by omega), b64_bit3 (b2 % 16) (by omega) (b3 / 64) (by omega),
      b64_bit9 (b2 % 16) (by omega), b64_bit6 (b2 / 16) (by omega) (b2 % 16) (by omega)]
  omega

lemma byte3_eq (b3 : Nat) (h3 : b3 < 256) (r : Nat) (hr : r < 16) :
    (((r * 4 + b3 / 64) &&& 3) <<< 6) ||| (b3 % 64) = b3 := by
  rw [b64_bit4 r hr (b3 / 64) (by omega), b64_bit7 (b3 / 64) (by omega) (b3 % 64) (by omega)]
  omega

/-- Decoding a quartet that starts with a pad stops at once. -/
lemma loop_pad_first (t : List Nat) (fuel : Nat) (hf : 1 ≤ fuel) :
    gr_base64dec_loop fuel (61 :: t) = [] := by
  obtain ⟨f, rfl⟩ : ∃ f, fuel = f + 1 := ⟨fuel - 1, by omega⟩
  rw [gr_base64dec_loop]
  rw [if_neg (by decide : ¬(61 = 0))]
  simp only [getc_pad, digits_pad]
  rw [if_pos (Or.inl trivial)]

/-- Decoding a quartet whose second sextet is a pad stops at once, even
though the first sextet is a normal alphabet character. -/
lemma loop_pad_second (s : Nat) (hs : s < 64) (t : List Nat) (fuel : Nat) (hf : 1 ≤ fuel) :
    gr_base64dec_loop fuel (base64_alphabet_char s :: 61 :: t) = [] := by
  obtain ⟨f, rfl⟩ : ∃ f, fuel = f + 1 := ⟨fuel - 1, by omega⟩
  rw [gr_base64dec_loop]
  rw [if_neg (alpha_lt s hs).1]
  simp only [getc_alpha s hs, getc_pad, digits_pad]
  rw [if_pos (Or.inr trivial)]

/-- Main induction: decoding the (padded) encoding followed by any tail
that on its own decodes to nothing recovers exactly the bytes. -/
lemma dec_loop_enc (bs : List Nat) (hb : ∀ b ∈ bs, b < 256) :
    ∀ (t : List Nat) (fuel : Nat), (gr_base64enc bs ++ t).length ≤ fuel →
      (∀ f, t.length ≤ f → gr_base64dec_loop f t = []) →
      gr_base64dec_loop fuel (gr_base64enc bs ++ t) = bs := by
  induction bs using gr_base64enc.induct with
  | case1 =>
    intro t fuel hf ht
    simp only [gr_base64enc, List.nil_append] at hf ⊢
    exact ht fuel hf
  | case2 b1 =>
    intro t fuel hf ht
    have h1 : b1 < 256 := hb b1 (by simp)
    simp only [gr_base64enc, List.cons_append, List.nil_append]
    simp only [gr_base64enc, List.length_append, List.length_cons] at hf
    obtain ⟨f, rfl⟩ : ∃ f, fuel = f + 1 := ⟨fuel - 1, by omega⟩
    rw [gr_base64dec_loop]
    rw [if_neg (alpha_lt (b1 / 4) (by omega)).1]
    simp only [getc_alpha (b1 / 4) (by omega), getc_alpha ((b1 % 4) * 16) (by omega),
      getc_pad, digits_pad]
    rw [if_neg (by
      push_neg
      exact ⟨digits_alpha_ne _ (by omega), digits_alpha_ne _ (by omega)⟩)]
    rw [if_pos trivial]
    simp only [digits_alpha_toNat (b1 / 4) (by omega),
      digits_alpha_toNat ((b1 % 4) * 16) (by omega)]
    have : ((b1 / 4) <<< 2) ||| (((b1 % 4) * 16) &&& 48) >>> 4 = b1 := by
      have := byte1_eq b1 0 h1 (by omega)
      simpa using this
    rw [this]
  | case3 b1 b2 =>
    intro t fuel hf ht
    have h1 : b1 < 256 := hb b1 (by simp)
    have h2 : b2 < 256 := hb b2 (by simp)
    simp only [gr_base64enc, List.cons_append, List.nil_append]
    simp only [gr_base64enc, List.length_append, List.length_cons] at hf
    obtain ⟨f, rfl⟩ : ∃ f, fuel = f + 1 := ⟨fuel - 1, by omega⟩
    rw [gr_base64dec_loop]
    rw [if_neg (alpha_lt (b1 / 4) (by omega)).1]
    simp only [getc_alpha (b1 / 4) (by omega),
      getc_alpha ((b1 % 4) * 16 + b2 / 16) (by omega),
      getc_alpha ((b2 % 16) * 4) (by omega), getc_pad, digits_pad]
    rw [if_neg (by
      push_neg
      exact ⟨digits_alpha_ne _ (by omega), digits_alpha_ne _ (by omega)⟩)]
    rw [if_neg (digits_alpha_ne _ (by omega))]
    rw [if_pos trivial]
    simp only [digits_alpha_toNat (b1 / 4) (by omega),
      digits_alpha_toNat ((b1 % 4) * 16 + b2 / 16) (by omega),
      digits_alpha_toNat ((b2 % 16) * 4) (by omega)]
    rw [byte1_eq b1 b2 h1 h2]
    have : (((b1 % 4) * 16 + b2 / 16) &&& 15) <<< 4 ||| (((b2 % 16) * 4) &&& 60) >>> 2 = b2 := by
      have := byte2_eq b2 0 h2 (by omega) (b1 % 4) (by omega)
      simpa using this
    rw [this]
  | case4 b1 b2 b3 rest ih =>
    intro t fuel hf ht
    have h1 : b1 < 256 := hb b1 (by simp)
    have h2 : b2 < 256 := hb b2 (by simp)
    have h3 : b3 < 256 := hb b3 (by simp)
    simp only [gr_base64enc, List.cons_append]
    simp only [gr_base64enc, List.length_append, List.length_cons] at hf
    obtain ⟨f, rfl⟩ : ∃ f, fuel = f + 1 := ⟨fuel - 1, by omega⟩
    rw [gr_base64dec_loop]
    rw [if_neg (alpha_lt (b1 / 4) (by omega)).1]
    simp only [getc_alpha (b1 / 4) (by omega),
      getc_alpha ((b1 % 4) * 16 + b2 / 16) (by omega),
      getc_alpha ((b2 % 16) * 4 + b3 / 64) (by omega),
      getc_alpha (b3 % 64) (by omega)]
    rw [if_neg (by
      push_neg
      exact ⟨digits_alpha_ne _ (by omega), digits_alpha_ne _ (by omega)⟩)]
    rw [if_neg (digits_alpha_ne _ (by omega))]
    rw [if_neg (digits_alpha_ne _ (by omega))]
    simp only [digits_alpha_toNat (b1 / 4) (by omega),
      digits_alpha_toNat ((b1 % 4) * 16 + b2 / 16) (by omega),
      digits_alpha_toNat ((b2 % 16) * 4 + b3 / 64) (by omega),
      digits_alpha_toNat (b3 % 64) (by omega)]
    rw [byte1_eq b1 b2 h1 h2, byte2_eq b2 b3 h2 h3 (b1 % 4) (by omega),
        byte3_eq b3 h3 (b2 % 16) (by omega)]
    rw [ih (fun b hbm => hb b (by simp [hbm])) t f (by simp only [List.length_append]; omega) ht]

/-- Induction for the unpadded encoding: the end-of-string `'='`
emulation in `gr_base64_getc` supplies the missing pads. -/
lemma dec_loop_enc_nopad (bs : List Nat) (hb : ∀ b ∈ bs, b < 256) :
    ∀ fuel : Nat, (gr_base64enc_nopad bs).length ≤ fuel →
      gr_base64dec_loop fuel (gr_base64enc_nopad bs) = bs := by
  induction bs using gr_base64enc_nopad.induct with
  | case1 =>
    intro fuel hf
    simp only [gr_base64enc_nopad]
    exact loop_nil fuel
  | case2 b1 =>
    intro fuel hf
    have h1 : b1 < 256 := hb b1 (by simp)
    simp only [gr_base64enc_nopad] at hf ⊢
    obtain ⟨f, rfl⟩ : ∃ f, fuel = f + 1 := ⟨fuel - 1, by simp at hf; omega⟩
    rw [gr_base64dec_loop]
    rw [if_neg (alpha_lt (b1 / 4) (by omega)).1]
    simp only [getc_alpha (b1 / 4) (by omega), getc_alpha ((b1 % 4) * 16) (by omega),
      getc_nil, digits_pad]
    rw [if_neg (by
      push_neg
      exact ⟨digits_alpha_ne _ (by omega), digits_alpha_ne _ (by omega)⟩)]
    rw [if_pos trivial]
    simp only [digits_alpha_toNat (b1 / 4) (by omega),
      digits_alpha_toNat ((b1 % 4) * 16) (by omega)]
    have : ((b1 / 4) <<< 2) ||| (((b1 % 4) * 16) &&& 48) >>> 4 = b1 := by
      have := byte1_eq b1 0 h1 (by omega)
      simpa using this
    rw [this]
  | case3 b1 b2 =>
    intro fuel hf
    have h1 : b1 < 256 := hb b1 (by simp)
    have h2 : b2 < 256 := hb b2 (by simp)
    simp only [gr_base64enc_nopad] at hf ⊢
    obtain ⟨f, rfl⟩ : ∃ f, fuel = f + 1 := ⟨fuel - 1, by simp at hf; omega⟩
    rw [gr_base64dec_loop]
    rw [if_neg (alpha_lt (b1 / 4) (by omega)).1]
    simp only [getc_alpha (b1 / 4) (by omega),
      getc_alpha ((b1 % 4) * 16 + b2 / 16) (by omega),
      getc_alpha ((b2 % 16) * 4) (by omega), getc_nil, digits_pad]
    rw [if_neg (by
      push_neg
      exact ⟨digits_alpha_ne _ (by omega), digits_alpha_ne _ (by omega)⟩)]
    rw [if_neg (digits_alpha_ne _ (by omega))]
    rw [if_pos trivial]
    simp only [digits_alpha_toNat (b1 / 4) (by omega),
      digits_alpha_toNat ((b1 % 4) * 16 + b2 / 16) (by omega),
      digits_alpha_toNat ((b2 % 16) * 4) (by omega)]
    rw [byte1_eq b1 b2 h1 h2]
    have : (((b1 % 4) * 16 + b2 / 16) &&& 15) <<< 4 ||| (((b2 % 16) * 4) &&& 60) >>> 2 = b2 := by
      have := byte2_eq b2 0 h2 (by omega) (b1 % 4) (by omega)
      simpa using this
    rw [this]
  | case4 b1 b2 b3 rest ih =>
    intro fuel hf
    have h1 : b1 < 256 := hb b1 (by simp)
    have h2 : b2 < 256 := hb b2 (by simp)
    have h3 : b3 < 256 := hb b3 (by simp)
    simp only [gr_base64enc_nopad] at hf ⊢
    obtain ⟨f, rfl⟩ : ∃ f, fuel = f + 1 := ⟨fuel - 1, by simp at hf; omega⟩
    rw [gr_base64dec_loop]
    rw [if_neg (alpha_lt (b1 / 4) (by omega)).1]
    simp only [getc_alpha (b1 / 4) (by omega),
      getc_alpha ((b1 % 4) * 16 + b2 / 16) (by omega),
      getc_alpha ((b2 % 16) * 4 + b3 / 64) (by omega),
      getc_alpha (b3 % 64) (by omega)]
    rw [if_neg (by
      push_neg
      exact ⟨digits_alpha_ne _ (by omega), digits_alpha_ne _ (by omega)⟩)]
    rw [if_neg (digits_alpha_ne _ (by omega))]
    rw [if_neg (digits_alpha_ne _ (by omega))]
    simp only [digits_alpha_toNat (b1 / 4) (by omega),
      digits_alpha_toNat ((b1 % 4) * 16 + b2 / 16) (by omega),
      digits_alpha_toNat ((b2 % 16) * 4 + b3 / 64) (by omega),
      digits_alpha_toNat (b3 % 64) (by omega)]
    rw [byte1_eq b1 b2 h1 h2, byte2_eq b2 b3 h2 h3 (b1 % 4) (by omega),
        byte3_eq b3 h3 (b2 % 16) (by omega)]
    rw [ih (fun b hbm => hb b (by simp [hbm])) f (by simp at hf ⊢; omega)]

/-- C9 (confirmed).  Base64 round trip: `gr_base64dec` is a left inverse
of the standard base64 encoding; an input with missing trailing padding
decodes as if the missing `'='` were present; and decoding terminates at
the first pad character occurring in either of the first two sextets of
a quartet (so any tail after such a pad is ignored). -/
theorem C9_base64_roundtrip (bs : List Nat) (hb : ∀ b ∈ bs, b < 256) :
    gr_base64dec (gr_base64enc bs) = bs ∧
    gr_base64dec (gr_base64enc_nopad bs) = bs ∧
    (∀ t : List Nat, gr_base64dec (gr_base64enc bs ++ 61 :: t) = bs) ∧
    (∀ s : Nat, s < 64 → ∀ t : List Nat,
      gr_base64dec (gr_base64enc bs ++ base64_alphabet_char s :: 61 :: t) = bs) := by
  refine ⟨?_, ?_, ?_, ?_⟩
  · have := dec_loop_enc bs hb [] (gr_base64enc bs ++ []).length (le_refl _)
      (fun f _ => loop_nil f)
    simpa [gr_base64dec] using this
  · exact dec_loop_enc_nopad bs hb _ (le_refl _)
  · intro t
    exact dec_loop_enc bs hb (61 :: t) _ (le_refl _)
      (fun f hfl => loop_pad_first t f (by simp at hfl; omega))
  · intro s hs t
    exact dec_loop_enc bs hb (base64_alphabet_char s :: 61 :: t) _ (le_refl _)
      (fun f hfl => loop_pad_second s hs t f (by simp at hfl; omega))


/-- C9 witness: the round trip evaluated on the concrete byte string
`[104, 105, 33]`, with concrete junk tails after the pads. -/
theorem C9_base64_roundtrip_witness :
    (∀ b ∈ [104, 105, 33], b < 256) ∧
    gr_base64dec (gr_base64enc [104, 105, 33]) = [104, 105, 33] ∧
    gr_base64dec (gr_base64enc_nopad [104, 105, 33]) = [104, 105, 33] ∧
    gr_base64dec (gr_base64enc [104, 105, 33] ++ 61 :: [7, 200]) = [104, 105, 33] ∧
    gr_base64dec (gr_base64enc [104, 105, 33] ++
      base64_alphabet_char 5 :: 61 :: [9]) = [104, 105, 33] :=
  ⟨by decide,
   (C9_base64_roundtrip [104, 105, 33] (by decide)).1,
   (C9_base64_roundtrip [104, 105, 33] (by decide)).2.1,
   (C9_base64_roundtrip [104, 105, 33] (by decide)).2.2.1 [7, 200],
   (C9_base64_roundtrip [104, 105, 33] (by decide)).2.2.2 5 (by decide) [9]⟩

/-! ## Responses and global state

Mirrors `GraphicsCommandResult` (graphics.h lines 50-68), the response
writers (graphics.c lines 1726-1859) and the global mutable state of
graphics.c lines 210-228.  The `response` buffer is a `List Char` (the
C code's 256-byte truncation is not modelled; all responses of interest
are far shorter).  `ram_load_attempted` is instrumentation recording
that `gr_load_image` was invoked via `gr_loadimage_and_report`. -/

/-- The ASCII escape character used in response framing. -/
def escChar : Char := '\x1b'

/-- `%u` formatting of an unsigned value. -/
def natChars (n : Nat) : List Char := (Nat.repr n).data

/-- `GraphicsCommandResult` with the placeholder sub-struct inlined. -/
structure GraphicsCommandResult where
  redraw : Bool
  response : List Char
  error : Bool
  create_placeholder : Bool
  ph_rows : Nat
  ph_columns : Nat
  ph_image_id : Nat
  ph_placement_id : Nat
  ph_do_not_move_cursor : Bool
  deriving Repr, DecidableEq

/-- The zeroed command result (`memset` at the start of
`gr_parse_command`). -/
def emptyResult : GraphicsCommandResult := ⟨false, [], false, false, 0, 0, 0, 0, false⟩

/-- `gr_createresponse`: frame `ESC _ G key=value,... ; msg ESC \`.
When all three ids are zero the response is only logged to stderr and
the buffer is left untouched.  The trailing comma of the last field is
overwritten with `';'`. -/
def gr_createresponse (image_id image_number placement_id : Nat) (msg : List Char)
    (res : GraphicsCommandResult) : GraphicsCommandResult :=
  if image_id = 0 ∧ image_number = 0 ∧ placement_id = 0 then res
  else
    let fields : List Char :=
      (if image_id ≠ 0 then 'i' :: '=' :: natChars image_id ++ [','] else []) ++
      (if image_number ≠ 0 then 'I' :: '=' :: natChars image_number ++ [','] else []) ++
      (if placement_id ≠ 0 then 'p' :: '=' :: natChars placement_id ++ [','] else [])
    { res with response :=
        escChar :: '_' :: 'G' :: (fields.dropLast ++ [';'] ++ msg ++ [escChar, '\\']) }

/-- `gr_reportsuccess_img` (quiet < 1 required). -/
def gr_reportsuccess_img (img : Image) (res : GraphicsCommandResult) :
    GraphicsCommandResult :=
  let id := if img.query_id ≠ 0 then img.query_id else img.image_id
  if img.quiet < 1 then
    gr_createresponse id img.image_number img.initial_placement_id "OK".data res
  else res

/-- `gr_reporterror_img`: always sets the error flag; builds a response
only when an image is given and its quiet level is below 2 (for a NULL
image the C code calls `gr_createresponse(0,0,0,...)`, which drops the
response). -/
def gr_reporterror_img (img? : Option Image) (msg : List Char)
    (res : GraphicsCommandResult) : GraphicsCommandResult :=
  let res := { res with error := true }
  match img? with
  | none => res
  | some img =>
    let id := if img.query_id ≠ 0 then img.query_id else img.image_id
    if img.quiet < 2 then
      gr_createresponse id img.image_number img.initial_placement_id msg res
    else res

/-- Configuration constants of graphics.c (config.h externs). -/
structure GrEnv where
  graphics_max_single_image_file_size : Nat
  graphics_total_file_cache_size : Nat
  graphics_max_single_image_ram_size : Nat
  graphics_max_total_ram_size : Nat
  graphics_max_total_placements : Nat
  deriving Repr, DecidableEq

/-- `gr_reportuploaderror`: maps the stored uploading failure to a
response.  The C switch has no case for `ERROR_CANNOT_COPY_FILE` (that
failure is reported directly at its site), so it produces nothing
here. -/
def gr_reportuploaderror (env : GrEnv) (img : Image) (res : GraphicsCommandResult) :
    GraphicsCommandResult :=
  match img.uploading_failure with
  | .noError => res
  | .cannotOpenCachedFile =>
    gr_reporterror_img (some img) "EIO: could not create a file for image".data res
  | .overSizeLimit =>
    gr_reporterror_img (some img)
      ("EFBIG: the size of the uploaded image exceeded the image size limit ".data ++
        natChars env.graphics_max_single_image_file_size) res
  | .unexpectedSize =>
    gr_reporterror_img (some img)
      ("EINVAL: the size of the uploaded image ".data ++ natChars img.disk_size ++
        " doesn\x27t match the expected size ".data ++ natChars img.expected_size) res
  | .cannotCopyFile => res

/-- The process-wide mutable state of graphics.c: the image store (the
`id → Image` hash map as an association list), the direct-upload slot,
counters and the current cell metrics.  `ram_load_attempted` is
instrumentation (see section header). -/
structure GrState where
  images : List Image
  current_upload_image_id : Nat
  last_image_id : Nat
  total_placement_count : Nat
  images_disk_size : Int
  images_ram_size : Int
  global_command_counter : Nat
  current_cw : Int
  current_ch : Int
  ram_load_attempted : Bool
  deriving Repr, DecidableEq

/-- `gr_find_image`: look an image up by client id. -/
def gr_find_image (st : GrState) (image_id : Nat) : Option Image :=
  st.images.find? (fun i => i.image_id == image_id)

/-- Write an updated image record back into the store (C mutates the
record in place through a pointer). -/
def gr_update_image (st : GrState) (img : Image) : GrState :=
  { st with images := st.images.map (fun i => if i.image_id = img.image_id then img else i) }

/-- `gr_image_ram_size`: estimated RAM of a loaded image. -/
def gr_image_ram_size (img : Image) : Int := img.pix_width * img.pix_height * 4

/-- `gr_placement_ram_size`: estimated RAM of a loaded placement. -/
def gr_placement_ram_size (p : ImagePlacement) : Int :=
  ((p.rows * p.cols * p.scaled_ch * p.scaled_cw * 4 : Nat) : Int)

/-- `gr_delete_image`: unload from RAM, delete the cached file, drop all
placements, and erase the id from the store, with the counter updates of
`gr_unload_image`, `gr_delete_imagefile` and
`gr_delete_placement_keep_id`. -/
def gr_delete_image_state (st : GrState) (img : Image) : GrState :=
  let ramImg : Int := if img.original_image then gr_image_ram_size img else 0
  let ramPls : Int := (img.placements.map (fun p =>
      if p.scaled_image then gr_placement_ram_size p else 0)).sum
  { st with
    images := st.images.filter (fun i => i.image_id ≠ img.image_id),
    images_ram_size := st.images_ram_size - ramImg - ramPls,
    images_disk_size := st.images_disk_size - img.disk_size,
    total_placement_count := st.total_placement_count - img.placements.length }

/-- External effects abstracted for the upload / load path: whether
`fopen` of the cache sink succeeds, whether decoding the cached file
into RAM succeeds, the image dimensions the generic decoder reports, and
the current monotonic time. -/
structure LoadOracle where
  open_ok : Bool
  load_ok : Bool
  imlib_w : Int
  imlib_h : Int
  now : Int
  deriving Repr, DecidableEq

/-- `gr_load_image` (graphics.c lines 1005-1052): no-op when already in
RAM or not yet uploaded; a deleted file is a RAM-loading error; else the
decode outcome is the oracle's.  The imlib and raw decode paths are
merged into the single oracle outcome `load_ok`; for auto formats a
successful decode also sets the pixel size reported by the decoder.
Returns the updated image and the RAM-counter delta. -/
def gr_load_image (o : LoadOracle) (img : Image) : Image × Int :=
  if img.original_image then (img, 0)
  else if img.status.code < ImageStatus.uploadingSuccess.code then (img, 0)
  else if img.disk_size = 0 then ({ img with status := .ramLoadingError }, 0)
  else if o.load_ok then
    let img := if img.format = 100 ∨ img.format = 0 then
        { img with pix_width := o.imlib_w, pix_height := o.imlib_h } else img
    ({ img with original_image := true, status := .ramLoadingSuccess },
     gr_image_ram_size { img with original_image := true })
  else ({ img with status := .ramLoadingError }, 0)

/-- `gr_display_nonvirtual_placement` (graphics.c lines 1864-1883). -/
def gr_display_nonvirtual_placement (p : ImagePlacement) (img : Image)
    (current_cw current_ch : Int) (res : GraphicsCommandResult) :
    ImagePlacement × GraphicsCommandResult :=
  if p.virtual then (p, res)
  else if img.status.code < ImageStatus.ramLoadingSuccess.code then (p, res)
  else
    let p := gr_infer_placement_size_maybe p img current_cw current_ch
    (p, { res with
      create_placeholder := true,
      ph_image_id := img.image_id,
      ph_placement_id := p.placement_id,
      ph_columns := p.cols,
      ph_rows := p.rows,
      ph_do_not_move_cursor := p.do_not_move_cursor })

/-- `gr_loadimage_and_report` (graphics.c lines 1821-1834): load, then
report success or `EBADF`; a query image is deleted after reporting.
Sets the `ram_load_attempted` instrumentation flag.  Returns the state,
the image (`none` when it was a discarded query image) and the result. -/
def gr_loadimage_and_report (o : LoadOracle) (st : GrState) (img : Image)
    (res : GraphicsCommandResult) : GrState × Option Image × GraphicsCommandResult :=
  let st := { st with ram_load_attempted := true }
  let (img, delta) := gr_load_image o img
  let st := { st with images_ram_size := st.images_ram_size + delta }
  let res := if ¬img.original_image then
      gr_reporterror_img (some img) "EBADF: could not load image".data res
    else gr_reportsuccess_img img res
  if img.query_id ≠ 0 then (gr_delete_image_state st img, none, res)
  else (gr_update_image st img, some img, res)

/-! ## Direct chunked upload (`gr_append_data`)

Mirrors graphics.c lines 1888-1984.  The final `gr_check_limits()` call
of the C function is not part of this model: it only evicts records from
the global store when the configured ceilings are exceeded and never
touches the fields examined by the theorems below; the placement pass
of `gr_check_limits` is modelled separately for C5. -/

/-- `gr_append_data`.  `img0` is the `img` argument (an image found by
the transmit handler, or `none` for a bare `m=` continuation command,
which resolves through the current-direct-upload slot). -/
def gr_append_data (o : LoadOracle) (env : GrEnv) (st : GrState)
    (res : GraphicsCommandResult) (img0 : Option Image) (payload : List Nat)
    (more : Bool) : GrState × GraphicsCommandResult :=
  let img? := match img0 with
    | some i => some i
    | none => gr_find_image st st.current_upload_image_id
  let st := if ¬more then { st with current_upload_image_id := 0 } else st
  match img? with
  | none =>
    if ¬more then
      (st, gr_reporterror_img none
        "ENOENT: could not find the image to append data to".data res)
    else (st, res)
  | some img =>
    if img.status ≠ .uploading then
      (st, if ¬more then gr_reportuploaderror env img res else res)
    else
      -- decode the chunk
      let data_size := (gr_base64dec payload).length
      if img.disk_size + data_size > env.graphics_max_single_image_file_size ∨
         img.expected_size > env.graphics_max_single_image_file_size then
        -- reject the image: delete the file, mark OverSizeLimit
        let img := { img with open_file := false }
        let pair :=
          if img.disk_size = 0 then (st, img)
          else ({ st with images_disk_size := st.images_disk_size - img.disk_size },
                { img with disk_size := 0 })
        let st := pair.1
        let img := { pair.2 with uploading_failure := .overSizeLimit }
        (gr_update_image st img,
         if ¬more then gr_reportuploaderror env img res else res)
      else if ¬img.open_file ∧ ¬o.open_ok then
        -- could not (re)open the on-disk sink
        let img := { img with status := .uploadingError,
                              uploading_failure := .cannotOpenCachedFile }
        (gr_update_image st img,
         if ¬more then gr_reportuploaderror env img res else res)
      else
        -- write the chunk, update counters, touch
        let img := { img with open_file := true,
                              disk_size := img.disk_size + data_size,
                              atime := o.now }
        let st := { st with images_disk_size := st.images_disk_size + data_size }
        if more then
          ({ gr_update_image st img with current_upload_image_id := img.image_id }, res)
        else
          let st := { st with current_upload_image_id := 0 }
          let img := { img with open_file := false, status := .uploadingSuccess }
          if img.expected_size ≠ 0 ∧ img.expected_size ≠ img.disk_size then
            let img := { img with status := .uploadingError,
                                  uploading_failure := .unexpectedSize }
            (gr_update_image st img, gr_reportuploaderror env img res)
          else
            match gr_loadimage_and_report o st img res with
            | (st, none, res) => (st, res)
            | (st, some img, res) =>
              -- placeholders for every non-virtual placement
              let step := fun (acc : List ImagePlacement × GraphicsCommandResult)
                  (p : ImagePlacement) =>
                let pr := gr_display_nonvirtual_placement p img st.current_cw
                  st.current_ch acc.2
                (acc.1 ++ [pr.1], pr.2)
              let pls := img.placements.foldl step ([], res)
              (gr_update_image st { img with placements := pls.1 }, pls.2)

/-- `s` contains `sub` as a contiguous substring. -/
def containsSub (s sub : List Char) : Prop := ∃ l r, s = l ++ sub ++ r

/-- Looking up an id after writing back an updated record with that id
yields the updated record. -/
lemma find_map_update (l : List Image) (img img' : Image)
    (hid : img'.image_id = img.image_id)
    (h : l.find? (fun i => i.image_id == img.image_id) = some img) :
    (l.map (fun i => if i.image_id = img'.image_id then img' else i)).find?
      (fun i => i.image_id == img'.image_id) = some img' := by
  induction l with
  | nil => simp at h
  | cons hd tl ih =>
    by_cases hhd : hd.image_id = img.image_id
    · have hhd' : hd.image_id = img'.image_id := by rw [hid]; exact hhd
      simp only [List.map_cons, if_pos hhd']
      exact List.find?_cons_of_pos _ (by simp)
    · have hhd' : ¬hd.image_id = img'.image_id := by rw [hid]; exact hhd
      rw [List.find?_cons_of_neg _ (by simp [hhd])] at h
      simp only [List.map_cons, if_neg hhd']
      rw [List.find?_cons_of_neg _ (by simp [hhd'])]
      exact ih h

/-- `gr_find_image` after `gr_update_image`. -/
lemma gr_find_update_eq (st : GrState) (img img' : Image)
    (hid : img'.image_id = img.image_id)
    (hmem : gr_find_image st img.image_id = some img) :
    gr_find_image (gr_update_image st img') img'.image_id = some img' :=
  find_map_update st.images img img' hid hmem

/-- An upload-error report for `UnexpectedSize` sets the error flag and,
below quiet level 2, emits a response containing `EINVAL`. -/
lemma reportuploaderror_unexpected (env : GrEnv) (img : Image)
    (res : GraphicsCommandResult)
    (hf : img.uploading_failure = .unexpectedSize)
    (hid : img.image_id ≠ 0) :
    (gr_reportuploaderror env img res).error = true ∧
    (img.quiet < 2 → containsSub (gr_reportuploaderror env img res).response
      "EINVAL".data) := by
  have hidnz : ¬((if img.query_id ≠ 0 then img.query_id else img.image_id) = 0 ∧
      img.image_number = 0 ∧ img.initial_placement_id = 0) := by
    by_cases hqid : img.query_id ≠ 0
    · simp [hqid]
    · push_neg at hqid
      simp [hqid, hid]
  have hsplit : ("EINVAL: the size of the uploaded image ".data : List Char) =
      "EINVAL".data ++ ": the size of the uploaded image ".data := rfl
  by_cases hq : img.quiet < 2
  · simp only [gr_reportuploaderror, hf, gr_reporterror_img, if_pos hq,
      gr_createresponse, if_neg hidnz]
    refine ⟨by trivial, fun _ => ?_⟩
    exact ⟨escChar :: '_' :: 'G' ::
      (((if (if img.query_id ≠ 0 then img.query_id else img.image_id) ≠ 0 then
          'i' :: '=' :: natChars (if img.query_id ≠ 0 then img.query_id else img.image_id)
            ++ [','] else []) ++
        (if img.image_number ≠ 0 then 'I' :: '=' :: natChars img.image_number ++ [','] else []) ++
        (if img.initial_placement_id ≠ 0 then
          'p' :: '=' :: natChars img.initial_placement_id ++ [','] else [])).dropLast
        ++ [';']),
      ": the size of the uploaded image ".data ++ natChars img.disk_size ++
        " doesn\x27t match the expected size ".data ++ natChars img.expected_size ++
        [escChar, '\\'],
      by simp [List.append_assoc]⟩
  · simp only [gr_reportuploaderror, hf, gr_reporterror_img, if_neg hq]
    exact ⟨by trivial, fun h => absurd h hq⟩

/-- C1 (confirmed).  Direct upload: on the final chunk (`m=0`), when the
declared expected size is non-zero and differs from the accumulated disk
size, `gr_append_data` sets the image status to `UploadingError` with
failure `UnexpectedSize`, records an error whose response contains
`EINVAL` when the image's quiet level is below 2, and never invokes the
RAM loader. -/
theorem C1_unexpected_size (o : LoadOracle) (env : GrEnv) (st : GrState)
    (res : GraphicsCommandResult) (img : Image) (payload : List Nat)
    (hmem : gr_find_image st img.image_id = some img)
    (himgid : img.image_id ≠ 0)
    (hst : img.status = .uploading)
    (hsize : img.disk_size + (gr_base64dec payload).length ≤
      env.graphics_max_single_image_file_size)
    (hexp_cap : img.expected_size ≤ env.graphics_max_single_image_file_size)
    (hopen : img.open_file = true ∨ o.open_ok = true)
    (hexp : img.expected_size ≠ 0)
    (hmm : img.expected_size ≠ img.disk_size + (gr_base64dec payload).length) :
    ∃ st' res' img',
      gr_append_data o env st res (some img) payload false = (st', res') ∧
      gr_find_image st' img.image_id = some img' ∧
      img'.status = .uploadingError ∧
      img'.uploading_failure = .unexpectedSize ∧
      res'.error = true ∧
      (img.quiet < 2 → containsSub res'.response "EINVAL".data) ∧
      st'.ram_load_attempted = st.ram_load_attempted := by
  have hrun : gr_append_data o env st res (some img) payload false =
      (gr_update_image
        { st with current_upload_image_id := 0,
                  images_disk_size := st.images_disk_size + (gr_base64dec payload).length }
        { img with open_file := false,
                   disk_size := img.disk_size + (gr_base64dec payload).length,
                   atime := o.now,
                   status := .uploadingError,
                   uploading_failure := .unexpectedSize },
       gr_reportuploaderror env
        { img with open_file := false,
                   disk_size := img.disk_size + (gr_base64dec payload).length,
                   atime := o.now,
                   status := .uploadingError,
                   uploading_failure := .unexpectedSize } res) := by
    simp only [gr_append_data, Bool.false_eq_true, not_false_eq_true, if_true, ite_true,
      ite_false, Bool.not_eq_true]
    rw [if_neg (show ¬img.status ≠ ImageStatus.uploading by simp [hst])]
    rw [if_neg (by push_neg; exact ⟨hsize, hexp_cap⟩)]
    rw [if_neg (by rcases hopen with h | h <;> simp [h])]
    rw [if_pos (show _ ∧ _ from ⟨hexp, by simpa using hmm⟩)]
  have hrep := reportuploaderror_unexpected env
    { img with open_file := false,
               disk_size := img.disk_size + (gr_base64dec payload).length,
               atime := o.now,
               status := .uploadingError,
               uploading_failure := .unexpectedSize } res rfl himgid
  exact ⟨_, _, _, hrun, gr_find_update_eq _ img _ rfl hmem, rfl, rfl, hrep.1, hrep.2, rfl⟩

/-- A concrete direct upload for the C1 witness: 8 bytes on disk, an
8-char chunk (6 more bytes), declared expected size 32. -/
def c1Img : Image :=
  ⟨3, 0, 0, 0, 0, 8, 32, 32, 0, 2, 2, .uploading, .noError, 0, true, false, [], 0, 0⟩

def c1St : GrState := ⟨[c1Img], 3, 3, 0, 8, 0, 0, 10, 20, false⟩

def c1Env : GrEnv := ⟨1000, 10000, 10000, 10000, 100⟩

def c1Oracle : LoadOracle := ⟨true, true, 2, 2, 5⟩

def c1Payload : List Nat := [65, 65, 65, 65, 65, 65, 65, 65]

/-- C1 witness: the size-mismatch upload evaluated at concrete inputs. -/
theorem C1_unexpected_size_witness :
    gr_find_image c1St c1Img.image_id = some c1Img ∧
    c1Img.status = .uploading ∧
    c1Img.expected_size ≠ 0 ∧
    c1Img.expected_size ≠ c1Img.disk_size + (gr_base64dec c1Payload).length ∧
    (∃ st' res' img',
      gr_append_data c1Oracle c1Env c1St emptyResult (some c1Img) c1Payload false =
        (st', res') ∧
      gr_find_image st' c1Img.image_id = some img' ∧
      img'.status = .uploadingError ∧
      img'.uploading_failure = .unexpectedSize ∧
      res'.error = true ∧
      (c1Img.quiet < 2 → containsSub res'.response "EINVAL".data) ∧
      st'.ram_load_attempted = c1St.ram_load_attempted) :=
  ⟨by decide, by decide, by decide, by decide,
   C1_unexpected_size c1Oracle c1Env c1St emptyResult c1Img c1Payload (by decide)
     (by decide) (by decide) (by decide) (by decide) (by decide) (by decide) (by decide)⟩

/-- An upload-error report for `OverSizeLimit` sets the error flag and,
below quiet level 2, emits a response containing `EFBIG` and the
configured size limit. -/
lemma reportuploaderror_oversize (env : GrEnv) (img : Image)
    (res : GraphicsCommandResult)
    (hf : img.uploading_failure = .overSizeLimit)
    (hid : img.image_id ≠ 0) :
    (gr_reportuploaderror env img res).error = true ∧
    (img.quiet < 2 →
      containsSub (gr_reportuploaderror env img res).response "EFBIG".data ∧
      containsSub (gr_reportuploaderror env img res).response
        (natChars env.graphics_max_single_image_file_size)) := by
  have hidnz : ¬((if img.query_id ≠ 0 then img.query_id else img.image_id) = 0 ∧
      img.image_number = 0 ∧ img.initial_placement_id = 0) := by
    by_cases hqid : img.query_id ≠ 0
    · simp [hqid]
    · push_neg at hqid
      simp [hqid, hid]
  by_cases hq : img.quiet < 2
  · simp only [gr_reportuploaderror, hf, gr_reporterror_img, if_pos hq,
      gr_createresponse, if_neg hidnz]
    refine ⟨by trivial, fun _ => ⟨?_, ?_⟩⟩
    · exact ⟨escChar :: '_' :: 'G' ::
        (((if (if img.query_id ≠ 0 then img.query_id else img.image_id) ≠ 0 then
            'i' :: '=' :: natChars (if img.query_id ≠ 0 then img.query_id else img.image_id)
              ++ [','] else []) ++
          (if img.image_number ≠ 0 then 'I' :: '=' :: natChars img.image_number ++ [','] else []) ++
          (if img.initial_placement_id ≠ 0 then
            'p' :: '=' :: natChars img.initial_placement_id ++ [','] else [])).dropLast
          ++ [';']),
        ": the size of the uploaded image exceeded the image size limit ".data ++
          natChars env.graphics_max_single_image_file_size ++ [escChar, '\\'],
        by simp [List.append_assoc]⟩
    · exact ⟨escChar :: '_' :: 'G' ::
        (((if (if img.query_id ≠ 0 then img.query_id else img.image_id) ≠ 0 then
            'i' :: '=' :: natChars (if img.query_id ≠ 0 then img.query_id else img.image_id)
              ++ [','] else []) ++
          (if img.image_number ≠ 0 then 'I' :: '=' :: natChars img.image_number ++ [','] else []) ++
          (if img.initial_placement_id ≠ 0 then
            'p' :: '=' :: natChars img.initial_placement_id ++ [','] else [])).dropLast
          ++ [';']) ++
          "EFBIG: the size of the uploaded image exceeded the image size limit ".data,
        [escChar, '\\'],
        by simp [List.append_assoc]⟩
  · simp only [gr_reportuploaderror, hf, gr_reporterror_img, if_neg hq]
    exact ⟨by trivial, fun h => absurd h hq⟩

/-- C3 (amended; see the counterexample for the quiet = 2 case of the
original claim).  When the accumulated disk size plus the decoded chunk
size would exceed the single-image file-size ceiling, the chunk is not
written (the cached file is dropped, `disk_size` becomes 0, the sink is
closed), the image is marked with `OverSizeLimit`, the RAM loader is not
invoked, and on the final chunk the error flag is set and — when the
image's quiet level is below 2 — a response containing `EFBIG` and the
configured limit is emitted. -/
theorem C3_oversize_rejected (o : LoadOracle) (env : GrEnv) (st : GrState)
    (res : GraphicsCommandResult) (img : Image) (payload : List Nat) (more : Bool)
    (hmem : gr_find_image st img.image_id = some img)
    (himgid : img.image_id ≠ 0)
    (hst : img.status = .uploading)
    (hover : img.disk_size + (gr_base64dec payload).length >
      env.graphics_max_single_image_file_size) :
    ∃ st' res' img',
      gr_append_data o env st res (some img) payload more = (st', res') ∧
      gr_find_image st' img.image_id = some img' ∧
      img'.uploading_failure = .overSizeLimit ∧
      img'.disk_size = 0 ∧
      img'.open_file = false ∧
      st'.ram_load_attempted = st.ram_load_attempted ∧
      (more = false → res'.error = true ∧
        (img.quiet < 2 →
          containsSub res'.response "EFBIG".data ∧
          containsSub res'.response (natChars env.graphics_max_single_image_file_size))) := by
  cases more with
  | false =>
    have hrun : gr_append_data o env st res (some img) payload false =
        (let st1 : GrState := { st with current_upload_image_id := 0 }
         let img1 : Image := { img with open_file := false }
         let pair :=
           if img1.disk_size = 0 then (st1, img1)
           else ({ st1 with images_disk_size := st1.images_disk_size - img1.disk_size },
                 { img1 with disk_size := 0 })
         let img2 : Image := { pair.2 with uploading_failure := .overSizeLimit }
         (gr_update_image pair.1 img2, gr_reportuploaderror env img2 res)) := by
      simp only [gr_append_data, Bool.false_eq_true, not_false_eq_true, if_true, ite_true,
        ite_false]
      rw [if_neg (show ¬img.status ≠ ImageStatus.uploading by simp [hst])]
      rw [if_pos (Or.inl hover)]
    by_cases h0 : img.disk_size = 0
    · simp only [if_pos (show ({ img with open_file := false } : Image).disk_size = 0
        from h0)] at hrun
      have hrep := reportuploaderror_oversize env
        { { img with open_file := false } with uploading_failure := .overSizeLimit }
        res rfl himgid
      exact ⟨_, _, _, hrun, gr_find_update_eq _ img _ rfl hmem, rfl, h0, rfl, rfl,
        fun _ => ⟨hrep.1, hrep.2⟩⟩
    · simp only [if_neg (show ¬({ img with open_file := false } : Image).disk_size = 0
        from h0)] at hrun
      have hrep := reportuploaderror_oversize env
        { { { img with open_file := false } with disk_size := 0 } with
          uploading_failure := .overSizeLimit } res rfl himgid
      exact ⟨_, _, _, hrun, gr_find_update_eq _ img _ rfl hmem, rfl, rfl, rfl, rfl,
        fun _ => ⟨hrep.1, hrep.2⟩⟩
  | true =>
    have hrun : gr_append_data o env st res (some img) payload true =
        (let img1 : Image := { img with open_file := false }
         let pair :=
           if img1.disk_size = 0 then (st, img1)
           else ({ st with images_disk_size := st.images_disk_size - img1.disk_size },
                 { img1 with disk_size := 0 })
         let img2 : Image := { pair.2 with uploading_failure := .overSizeLimit }
         (gr_update_image pair.1 img2, res)) := by
      simp only [gr_append_data, eq_self_iff_true, not_true, if_false, ite_false]
      rw [if_neg (show ¬img.status ≠ ImageStatus.uploading by simp [hst])]
      rw [if_pos (Or.inl hover)]
    by_cases h0 : img.disk_size = 0
    · simp only [if_pos (show ({ img with open_file := false } : Image).disk_size = 0
        from h0)] at hrun
      exact ⟨_, _, _, hrun, gr_find_update_eq _ img _ rfl hmem, rfl, h0, rfl, rfl,
        fun h => by simp at h⟩
    · simp only [if_neg (show ¬({ img with open_file := false } : Image).disk_size = 0
        from h0)] at hrun
      exact ⟨_, _, _, hrun, gr_find_update_eq _ img _ rfl hmem, rfl, rfl, rfl, rfl,
        fun h => by simp at h⟩

/-- A concrete oversize upload with quiet level 2, refuting the original
C3 claim's unconditional response. -/
def c3Img : Image :=
  ⟨9, 0, 0, 0, 0, 0, 0, 32, 0, 2, 2, .uploading, .noError, 2, false, false, [], 0, 0⟩

def c3St : GrState := ⟨[c3Img], 9, 9, 0, 0, 0, 0, 10, 20, false⟩

def c3Env : GrEnv := ⟨2, 100, 100, 100, 100⟩

/-- C3 counterexample: a final oversize chunk for an image with quiet
level 2.  The image is rejected with `OverSizeLimit`, but no response is
produced at all — in particular none containing `EFBIG` — contradicting
the claim that an error response containing `EFBIG` is emitted on the
final chunk. -/
theorem C3_oversize_counterexample :
    ((gr_find_image
        (gr_append_data ⟨true, true, 0, 0, 0⟩ c3Env c3St emptyResult (some c3Img)
          [65, 65, 65, 65] false).1 9).map Image.uploading_failure =
      some UploadingFailure.overSizeLimit) ∧
    (gr_append_data ⟨true, true, 0, 0, 0⟩ c3Env c3St emptyResult (some c3Img)
      [65, 65, 65, 65] false).2.response = [] ∧
    ¬containsSub
      (gr_append_data ⟨true, true, 0, 0, 0⟩ c3Env c3St emptyResult (some c3Img)
        [65, 65, 65, 65] false).2.response "EFBIG".data := by
  refine ⟨by decide, by decide, ?_⟩
  intro hsub
  obtain ⟨l, r, h⟩ := hsub
  rw [show (gr_append_data ⟨true, true, 0, 0, 0⟩ c3Env c3St emptyResult (some c3Img)
    [65, 65, 65, 65] false).2.response = [] from by decide] at h
  have hlen := congrArg List.length h
  simp at hlen
  omega

/-- C3 amended-theorem witness: the same oversize upload with quiet
level 0 does produce the `EFBIG` response with the limit value. -/
theorem C3_oversize_rejected_witness :
    gr_find_image c3St c3Img.image_id = some c3Img ∧
    c3Img.status = .uploading ∧
    c3Img.disk_size + (gr_base64dec [65, 65, 65, 65]).length >
      c3Env.graphics_max_single_image_file_size ∧
    (∃ st' res' img',
      gr_append_data ⟨true, true, 0, 0, 0⟩ c3Env c3St emptyResult (some c3Img)
        [65, 65, 65, 65] false = (st', res') ∧
      gr_find_image st' c3Img.image_id = some img' ∧
      img'.uploading_failure = .overSizeLimit ∧
      img'.disk_size = 0 ∧
      img'.open_file = false ∧
      st'.ram_load_attempted = c3St.ram_load_attempted ∧
      (false = false → res'.error = true ∧
        (c3Img.quiet < 2 →
          containsSub res'.response "EFBIG".data ∧
          containsSub res'.response
            (natChars c3Env.graphics_max_single_image_file_size)))) :=
  ⟨by decide, by decide, by decide,
   C3_oversize_rejected ⟨true, true, 0, 0, 0⟩ c3Env c3St emptyResult c3Img
     [65, 65, 65, 65] false (by decide) (by decide) (by decide) (by decide)⟩

/-! ## Commands and the transmit action

Mirrors the `GraphicsCommand` struct (graphics.c lines 1650-1698), the
command-level response writers (lines 1769-1796), image creation from a
command (lines 2004-2033) and `gr_handle_transmit_command`
(lines 2049-2185).  The C function body for the file medium is split
into `gr_transmit_file_medium`; `gr_handle_transmit_command` dispatches
the media exactly as the C if-chain does.  Filesystem effects (`stat`,
the symlink/`cp` copy, unlinking a temp file) are abstracted into
`TransmitOracle`.  The 8-bit truncation of `char`-field assignments from
parsed integers is not modelled (no claim depends on values ≥ 256), and
the trailing `gr_check_limits()` call is omitted as in
`gr_append_data`. -/

/-- A parsed kitty graphics protocol command (struct `GraphicsCommand`).
`action`, `transmission_medium` and `delete_specifier` use `'\x00'` for
"not given", as the zero-initialized C struct does. -/
structure GraphicsCommand where
  command : List Char
  payload : List Nat
  action : Char
  quiet : Int
  format : Int
  compression : Int
  transmission_medium : Char
  delete_specifier : Char
  pix_width : Int
  pix_height : Int
  src_pix_x : Int
  src_pix_y : Int
  src_pix_width : Int
  src_pix_height : Int
  rows : Int
  columns : Int
  image_id : Nat
  image_number : Nat
  placement_id : Nat
  more : Int
  is_data_transmission : Bool
  is_direct_transmission_continuation : Bool
  size : Int
  virtual : Int
  do_not_move_cursor : Int
  deriving Repr, DecidableEq

/-- The zero-initialized command (`GraphicsCommand cmd = {.command = buf}`). -/
def emptyCommand (command : List Char) : GraphicsCommand :=
  ⟨command, [], '\x00', 0, 0, 0, '\x00', '\x00', 0, 0, 0, 0, 0, 0, 0, 0,
   0, 0, 0, 0, false, false, 0, 0, 0⟩

/-- C conversion of a (possibly negative) parsed `long` to `uint32_t`. -/
def int_to_u32 (x : Int) : Nat := (x % 4294967296).toNat

/-- `gr_reportsuccess_cmd`: `OK` unless suppressed or a non-final data
transmission. -/
def gr_reportsuccess_cmd (cmd : GraphicsCommand) (res : GraphicsCommandResult) :
    GraphicsCommandResult :=
  if cmd.quiet < 1 ∧ cmd.more = 0 then
    gr_createresponse cmd.image_id cmd.image_number cmd.placement_id "OK".data res
  else res

/-- `gr_reporterror_cmd`: always sets the error flag; builds a response
below quiet level 2. -/
def gr_reporterror_cmd (cmd : GraphicsCommand) (msg : List Char)
    (res : GraphicsCommandResult) : GraphicsCommandResult :=
  let res := { res with error := true }
  if cmd.quiet < 2 then
    gr_createresponse cmd.image_id cmd.image_number cmd.placement_id msg res
  else res

/-- `gr_find_image_by_number`: the newest image (largest creation stamp)
with the given non-zero number. -/
def gr_find_image_by_number (st : GrState) (image_number : Nat) : Option Image :=
  if image_number = 0 then none
  else
    st.images.foldl (fun acc img =>
      if img.image_number = image_number then
        match acc with
        | none => some img
        | some newest =>
          if newest.global_command_index < img.global_command_index then some img
          else acc
      else acc) none

/-- `gr_find_image_for_command`: by id, else (for `p` without a number)
the last image, else by number; a hit fills in `cmd->image_id`. -/
def gr_find_image_for_command (st : GrState) (cmd : GraphicsCommand) :
    Option Image × GraphicsCommand :=
  if cmd.image_id ≠ 0 then (gr_find_image st cmd.image_id, cmd)
  else
    let img? := if cmd.image_number = 0 ∧ cmd.action = 'p' then
        gr_find_image st st.last_image_id
      else gr_find_image_by_number st cmd.image_number
    match img? with
    | some img => (some img, { cmd with image_id := img.image_id })
    | none => (none, cmd)

/-- `stat` information for the file medium. -/
structure FileStat where
  is_reg : Bool
  st_size : Int
  deriving Repr, DecidableEq

/-- Oracle for `gr_handle_transmit_command`: the upload/load oracle,
the outcome of `stat` on a decoded path (`none` means `stat` failed,
with `stat_errmsg` the `strerror` text), whether the symlink/`cp` copy
succeeds, and the id `rand()` would produce (assumed fresh and valid,
abstracting the generation loop of `gr_new_image`). -/
structure TransmitOracle where
  load : LoadOracle
  stat : List Nat → Option FileStat
  stat_errmsg : List Char
  copy_ok : Bool
  rand_id : Nat

/-- `gr_new_image`: delete any image with the same id, then insert a
fresh zeroed record stamped with the current command index. -/
def gr_new_image (st : GrState) (id0 : Nat) (rand_id : Nat) (now : Int) :
    GrState × Image :=
  let id := if id0 = 0 then rand_id else id0
  let st := match gr_find_image st id with
    | some old => gr_delete_image_state st old
    | none => st
  let img : Image :=
    ⟨id, 0, 0, now, st.global_command_counter, 0, 0, 0, 0, 0, 0,
     .uninitialized, .noError, 0, false, false, [], 0, 0⟩
  ({ st with images := st.images ++ [img] }, img)

/-- `gr_new_image_from_command` (graphics.c lines 2004-2033). -/
def gr_new_image_from_command (o : TransmitOracle) (st : GrState)
    (res : GraphicsCommandResult) (cmd : GraphicsCommand) :
    GrState × GraphicsCommandResult × Image × GraphicsCommand :=
  let res :=
    if cmd.format ≠ 0 ∧ cmd.format ≠ 32 ∧ cmd.format ≠ 24 ∧ cmd.compression ≠ 0 then
      gr_reporterror_cmd cmd
        "EINVAL: compression is supported only for raw pixel data (f=32 or f=24)".data res
    else res
  let image_id := if cmd.action = 'q' then 0 else cmd.image_id
  let (st, img) := gr_new_image st image_id o.rand_id o.load.now
  let img := if cmd.action = 'q' then { img with query_id := cmd.image_id } else img
  let cmd := if cmd.action ≠ 'q' ∧ cmd.image_id = 0 then
      { cmd with image_id := img.image_id } else cmd
  let img := { img with
    image_number := cmd.image_number,
    expected_size := int_to_u32 cmd.size,
    format := cmd.format,
    compression := cmd.compression.toNat,
    pix_width := cmd.pix_width,
    pix_height := cmd.pix_height,
    quiet := cmd.quiet.toNat }
  (gr_update_image st img, res, img, cmd)

/-- The file / temp-file medium branch of `gr_handle_transmit_command`
(graphics.c lines 2065-2153).  The symlink/`cp` copy and the temp-file
unlink are filesystem effects summarized by the oracle. -/
def gr_transmit_file_medium (o : TransmitOracle) (env : GrEnv) (st : GrState)
    (res : GraphicsCommandResult) (cmd : GraphicsCommand) :
    GrState × GraphicsCommandResult × Option Image :=
  let quad := gr_new_image_from_command o st res cmd
  let st := quad.1
  let res := quad.2.1
  let img := quad.2.2.1
  let cmd := quad.2.2.2
  let st := { st with last_image_id := img.image_id }
  let filename := gr_base64dec cmd.payload
  let stat_error : Option (List Char) :=
    match o.stat filename with
    | none => some o.stat_errmsg
    | some fs =>
      if ¬fs.is_reg then some "Not a regular file".data
      else if fs.st_size = 0 then some "The size of the file is zero".data
      else if fs.st_size > (env.graphics_max_single_image_file_size : Int) then
        some "The file is too large".data
      else none
  match stat_error with
  | some err =>
    let res := gr_reporterror_cmd cmd ("EBADF: ".data ++ err) res
    let img := { img with status := .uploadingError,
                          uploading_failure := .cannotCopyFile }
    (gr_update_image st img, res, some img)
  | none =>
    if ¬o.copy_ok then
      let res := gr_reporterror_cmd cmd
        "EBADF: could not copy the image to the cache dir".data res
      let img := { img with status := .uploadingError,
                            uploading_failure := .cannotCopyFile }
      (gr_update_image st img, res, some img)
    else
      let fs := (o.stat filename).getD ⟨true, 0⟩
      let img := { img with status := .uploadingSuccess,
                            disk_size := fs.st_size.toNat }
      let st := { st with images_disk_size := st.images_disk_size + fs.st_size }
      if img.expected_size ≠ 0 ∧ img.expected_size ≠ img.disk_size then
        let img := { img with status := .uploadingError,
                              uploading_failure := .unexpectedSize }
        (gr_update_image st img, gr_reportuploaderror env img res, some img)
      else
        match gr_loadimage_and_report o.load (gr_update_image st img) img res with
        | (st, img?, res) => (st, res, img?)

/-- `gr_handle_transmit_command` (graphics.c lines 2049-2185).  Returns
the image (for transmit-and-display) and the updated command (the
continuation flag and a filled-in id). -/
def gr_handle_transmit_command (o : TransmitOracle) (env : GrEnv) (st : GrState)
    (res : GraphicsCommandResult) (cmd : GraphicsCommand) :
    GrState × GraphicsCommandResult × GraphicsCommand × Option Image :=
  -- the default is direct transmission
  let cmd := if cmd.transmission_medium = '\x00' then
      { cmd with transmission_medium := 'd' } else cmd
  -- a bare chunk continues the in-progress direct upload
  let cmd := if st.current_upload_image_id ≠ 0 ∧ cmd.image_id = 0 ∧
      cmd.image_number = 0 ∧ cmd.transmission_medium = 'd' then
      { cmd with image_id := st.current_upload_image_id } else cmd
  if cmd.transmission_medium = 'f' ∨ cmd.transmission_medium = 't' then
    match gr_transmit_file_medium o env st res cmd with
    | (st, res, img?) => (st, res, cmd, img?)
  else if cmd.transmission_medium = 'd' then
    let pair := gr_find_image_for_command st cmd
    let cmd := pair.2
    match pair.1 with
    | some img =>
      if img.status = .uploading then
        let cmd := { cmd with is_direct_transmission_continuation := true }
        match gr_append_data o.load env st res (some img) cmd.payload (cmd.more ≠ 0) with
        | (st, res) => (st, res, cmd, gr_find_image st img.image_id)
      else
        transmitNewDirect o env st res cmd
    | none =>
      transmitNewDirect o env st res cmd
  else
    (st, gr_reporterror_cmd cmd
      ("EINVAL: transmission medium \x27".data ++ [cmd.transmission_medium] ++
        "\x27 is not supported".data) res, cmd, none)
where
  /-- Creation of a fresh direct-upload image and its first chunk
  (graphics.c lines 2164-2175). -/
  transmitNewDirect (o : TransmitOracle) (env : GrEnv) (st : GrState)
      (res : GraphicsCommandResult) (cmd : GraphicsCommand) :
      GrState × GraphicsCommandResult × GraphicsCommand × Option Image :=
    if cmd.action = '\x00' then (st, res, cmd, none)
    else
      let quad := gr_new_image_from_command o st res cmd
      let st := quad.1
      let res := quad.2.1
      let img := { quad.2.2.1 with status := ImageStatus.uploading }
      let cmd := quad.2.2.2
      let st := gr_update_image { st with last_image_id := img.image_id } img
      match gr_append_data o.load env st res (some img) cmd.payload (cmd.more ≠ 0) with
      | (st, res) => (st, res, cmd, gr_find_image st img.image_id)

/-- A freshly created image is found under its id. -/
lemma gr_find_new_image (st : GrState) (id0 rand_id : Nat) (now : Int) :
    gr_find_image (gr_new_image st id0 rand_id now).1
      (gr_new_image st id0 rand_id now).2.image_id =
      some (gr_new_image st id0 rand_id now).2 := by
  unfold gr_new_image
  cases hfind : gr_find_image st (if id0 = 0 then rand_id else id0) with
  | none =>
    have hfind' : st.images.find?
        (fun i => i.image_id == (if id0 = 0 then rand_id else id0)) = none := hfind
    simp [gr_find_image, List.find?_append, hfind']
  | some old =>
    have hold : old.image_id = (if id0 = 0 then rand_id else id0) := by
      simpa using List.find?_some hfind
    have hnone : (st.images.filter (fun i => decide (i.image_id ≠ old.image_id))).find?
        (fun i => i.image_id == (if id0 = 0 then rand_id else id0)) = none := by
      rw [List.find?_eq_none]
      intro x hx
      have hmemf := (List.mem_filter.mp hx).2
      simp only [decide_eq_true_eq] at hmemf
      simp [hold ▸ hmemf]
    have hfind' : st.images.find?
        (fun i => i.image_id == (if id0 = 0 then rand_id else id0)) = some old := hfind
    simp [gr_find_image, gr_delete_image_state, List.find?_append, hnone, hfind']
    exact Or.inr (fun x _ h => hold ▸ h)

/-- `gr_reporterror_cmd` sets the error flag, and below quiet level 2
emits a response containing the start of the message. -/
lemma reporterror_cmd_contains (cmd : GraphicsCommand) (msg : List Char)
    (res : GraphicsCommandResult) (hid : cmd.image_id ≠ 0)
    (sub rest : List Char) (hmsg : msg = sub ++ rest) :
    (gr_reporterror_cmd cmd msg res).error = true ∧
    (cmd.quiet < 2 → containsSub (gr_reporterror_cmd cmd msg res).response sub) := by
  have hidnz : ¬(cmd.image_id = 0 ∧ cmd.image_number = 0 ∧ cmd.placement_id = 0) :=
    fun h => hid h.1
  by_cases hq : cmd.quiet < 2
  · simp only [gr_reporterror_cmd, if_pos hq, gr_createresponse, if_neg hidnz]
    refine ⟨by trivial, fun _ => ?_⟩
    rw [hmsg]
    exact ⟨escChar :: '_' :: 'G' ::
      (((if cmd.image_id ≠ 0 then 'i' :: '=' :: natChars cmd.image_id ++ [','] else []) ++
        (if cmd.image_number ≠ 0 then 'I' :: '=' :: natChars cmd.image_number ++ [','] else []) ++
        (if cmd.placement_id ≠ 0 then
          'p' :: '=' :: natChars cmd.placement_id ++ [','] else [])).dropLast ++ [';']),
      rest ++ [escChar, '\\'],
      by simp [List.append_assoc]⟩
  · simp only [gr_reporterror_cmd, if_neg hq]
    exact ⟨by trivial, fun h => absurd h hq⟩

/-- C2 (amended; see the counterexample for the original claim's
`OverSizeLimit`/`EFBIG`).  A file-medium transmit whose referenced file
is a regular file larger than the single-image disk cap creates the
image record and marks it `UploadingError` with `CannotCopyFile`; the
response contains `EBADF` (below quiet level 2). -/
theorem C2_file_oversize (o : TransmitOracle) (env : GrEnv) (st : GrState)
    (res : GraphicsCommandResult) (cmd : GraphicsCommand) (fs : FileStat)
    (hmedium : cmd.transmission_medium = 'f')
    (haction : cmd.action ≠ 'q')
    (himgid : cmd.image_id ≠ 0)
    (hstat : o.stat (gr_base64dec cmd.payload) = some fs)
    (hreg : fs.is_reg = true)
    (hpos : fs.st_size ≠ 0)
    (hbig : fs.st_size > (env.graphics_max_single_image_file_size : Int)) :
    ∃ st' res' cmd' img,
      gr_handle_transmit_command o env st res cmd = (st', res', cmd', some img) ∧
      gr_find_image st' cmd.image_id = some img ∧
      img.image_id = cmd.image_id ∧
      img.status = .uploadingError ∧
      img.uploading_failure = .cannotCopyFile ∧
      res'.error = true ∧
      (cmd.quiet < 2 → containsSub res'.response "EBADF".data) := by
  have hmed0 : ¬cmd.transmission_medium = '\x00' := by rw [hmedium]; decide
  have hcont : ¬(st.current_upload_image_id ≠ 0 ∧ cmd.image_id = 0 ∧
      cmd.image_number = 0 ∧ cmd.transmission_medium = 'd') := fun h => himgid h.2.1
  have hqneg : ¬cmd.action = 'q' := haction
  have hfillneg : ¬(cmd.action ≠ 'q' ∧ cmd.image_id = 0) := fun h => himgid h.2
  simp only [gr_handle_transmit_command, if_neg hmed0, if_neg hcont,
    if_pos (Or.inl hmedium), gr_transmit_file_medium, gr_new_image_from_command,
    if_neg hqneg, if_neg hfillneg, hstat]
  rw [if_neg (show ¬¬fs.is_reg = true by simp [hreg])]
  rw [if_neg hpos, if_pos hbig]
  have hnew := gr_find_new_image st cmd.image_id o.rand_id o.load.now
  set fresh := (gr_new_image st cmd.image_id o.rand_id o.load.now).2 with hfresh
  have hfid : fresh.image_id = cmd.image_id := by
    rw [hfresh]
    unfold gr_new_image
    rw [if_neg himgid]
  -- the image value written back at the error site
  set imgA := ({ fresh with
    image_number := cmd.image_number,
    expected_size := int_to_u32 cmd.size,
    format := cmd.format,
    compression := cmd.compression.toNat,
    pix_width := cmd.pix_width,
    pix_height := cmd.pix_height,
    quiet := cmd.quiet.toNat } : Image) with himgA
  set imgF := ({ imgA with
    status := ImageStatus.uploadingError,
    uploading_failure := UploadingFailure.cannotCopyFile } : Image) with himgF
  have hrep := reporterror_cmd_contains cmd
    ("EBADF: ".data ++ "The file is too large".data)
    (if cmd.format ≠ 0 ∧ cmd.format ≠ 32 ∧ cmd.format ≠ 24 ∧ cmd.compression ≠ 0 then
      gr_reporterror_cmd cmd
        "EINVAL: compression is supported only for raw pixel data (f=32 or f=24)".data res
     else res)
    himgid "EBADF".data (": The file is too large".data ++ []) (by decide)
  have hFid : imgF.image_id = cmd.image_id := hfid
  refine ⟨_, _, _, imgF, rfl, ?_, hFid, rfl, rfl, hrep.1, hrep.2⟩
  -- the final store lookup: two updates after creation
  have h1 := gr_find_update_eq _ fresh imgA rfl hnew
  have h2 := gr_find_update_eq _ imgA imgF rfl h1
  rw [show imgF.image_id = cmd.image_id from hfid] at h2
  exact h2

/-- Concrete inputs for the C2 counterexample and witness: cap 4 bytes,
the referenced file is a 10-byte regular file. -/
def c2Cmd : GraphicsCommand :=
  { emptyCommand "a=T,t=f,i=2".data with
    action := 'T', transmission_medium := 'f', image_id := 2,
    payload := [65, 65, 65, 65] }

def c2Oracle : TransmitOracle :=
  ⟨⟨true, true, 0, 0, 0⟩, fun _ => some ⟨true, 10⟩, [], true, 77⟩

def c2Env : GrEnv := ⟨4, 100, 100, 100, 100⟩

def c2St : GrState := ⟨[], 0, 0, 0, 0, 0, 0, 10, 20, false⟩

/-- C2 counterexample: for the oversize file-medium transmit the image's
uploading failure is `CannotCopyFile`, not `OverSizeLimit` as the claim
states (and the response carries `EBADF`, not `EFBIG`). -/
theorem C2_file_oversize_counterexample :
    ((gr_find_image
        (gr_handle_transmit_command c2Oracle c2Env c2St emptyResult c2Cmd).1 2).map
      Image.uploading_failure = some UploadingFailure.cannotCopyFile) ∧
    UploadingFailure.cannotCopyFile ≠ UploadingFailure.overSizeLimit := by
  exact ⟨by decide, by decide⟩

/-- C2 amended-theorem witness at the concrete inputs. -/
theorem C2_file_oversize_witness :
    c2Cmd.transmission_medium = 'f' ∧
    c2Oracle.stat (gr_base64dec c2Cmd.payload) = some ⟨true, 10⟩ ∧
    (10 : Int) > (c2Env.graphics_max_single_image_file_size : Int) ∧
    (∃ st' res' cmd' img,
      gr_handle_transmit_command c2Oracle c2Env c2St emptyResult c2Cmd =
        (st', res', cmd', some img) ∧
      gr_find_image st' c2Cmd.image_id = some img ∧
      img.image_id = c2Cmd.image_id ∧
      img.status = .uploadingError ∧
      img.uploading_failure = .cannotCopyFile ∧
      res'.error = true ∧
      (c2Cmd.quiet < 2 → containsSub res'.response "EBADF".data)) :=
  ⟨by decide, by decide, by decide,
   C2_file_oversize c2Oracle c2Env c2St emptyResult c2Cmd ⟨true, 10⟩ (by decide)
     (by decide) (by decide) (by decide) (by decide) (by decide) (by decide)⟩

/-! ## The placements pass of `gr_check_limits`

Mirrors graphics.c lines 573-586: when the total placement count
exceeds the tolerance-adjusted ceiling, walk the placements sorted by
ascending atime and delete `total - max` of them, but `break` as soon
as the current (oldest remaining) placement is protected.  The sorted
array produced by `gr_get_placements_sorted_by_atime` is the input
(theorems assume it is sorted by atime); `total_placement_count` equals
its length; `apply_tolerance(max)` is the `adjusted` parameter (the
`double` tolerance arithmetic is abstracted; `max ≤ adjusted` holds for
any non-negative tolerance ratio). -/

/-- The deletion loop: delete up to `n` placements from the front,
stopping early at the first protected one.  Returns (deleted, kept). -/
def gr_placements_delete_loop : Nat → List ImagePlacement →
    List ImagePlacement × List ImagePlacement
  | 0, l => ([], l)
  | _ + 1, [] => ([], [])
  | n + 1, p :: rest =>
    if p.protected_flag then ([], p :: rest)
    else
      let pr := gr_placements_delete_loop n rest
      (p :: pr.1, pr.2)

/-- The placements pass of `gr_check_limits`. -/
def gr_check_limits_placements_pass (sorted : List ImagePlacement)
    (max_placements adjusted : Nat) : List ImagePlacement × List ImagePlacement :=
  if sorted.length > adjusted then
    gr_placements_delete_loop (sorted.length - max_placements) sorted
  else ([], sorted)

/-- The deletion loop removes an unprotected prefix of at most `n`
entries; a shorter prefix is only due to a protected head. -/
lemma gr_placements_delete_loop_spec :
    ∀ (n : Nat) (l : List ImagePlacement), n ≤ l.length →
    ∃ k, k ≤ n ∧ gr_placements_delete_loop n l = (l.take k, l.drop k) ∧
      (∀ p ∈ l.take k, p.protected_flag = false) ∧
      (k = n ∨ ∃ p rest, l.drop k = p :: rest ∧ p.protected_flag = true) := by
  intro n
  induction n with
  | zero =>
    intro l _
    exact ⟨0, le_refl 0, rfl, by simp, Or.inl rfl⟩
  | succ n ih =>
    intro l hlen
    match l with
    | [] => simp at hlen
    | p :: rest =>
      by_cases hp : p.protected_flag
      · refine ⟨0, by omega, ?_, by simp, Or.inr ⟨p, rest, rfl, hp⟩⟩
        simp only [gr_placements_delete_loop, if_pos hp]
        rfl
      · obtain ⟨k, hk, heq, hall, hstop⟩ := ih rest (by simp at hlen; omega)
        refine ⟨k + 1, by omega, ?_, ?_, ?_⟩
        · simp only [gr_placements_delete_loop, if_neg hp, heq, List.take_succ_cons,
            List.drop_succ_cons]
        · intro q hq
          rcases List.mem_cons.mp (by simpa using hq) with h | h
          · exact h ▸ Bool.eq_false_iff.mpr hp
          · exact hall q h
        · rcases hstop with h | ⟨q, r, hqr, hqp⟩
          · exact Or.inl (by omega)
          · exact Or.inr ⟨q, r, by simpa using hqr, hqp⟩

/-- C5 (amended; see the counterexample).  When the placement count
exceeds the tolerance-adjusted ceiling, the pass deletes a prefix of the
atime-sorted placement list: all deleted placements are unprotected and
no newer than any survivor, and either exactly `total − max` placements
are deleted (bringing the count to the maximum) or the pass stopped
early because the oldest remaining placement is protected (protected
placements are not skipped over). -/
theorem C5_placements_pass (sorted : List ImagePlacement)
    (max_placements adjusted : Nat)
    (hsorted : sorted.Pairwise (fun a b => a.atime ≤ b.atime))
    (hadj : max_placements ≤ adjusted)
    (hover : sorted.length > adjusted) :
    ∃ k, k ≤ sorted.length - max_placements ∧
      gr_check_limits_placements_pass sorted max_placements adjusted =
        (sorted.take k, sorted.drop k) ∧
      (∀ p ∈ sorted.take k, p.protected_flag = false) ∧
      (k = sorted.length - max_placements ∨
        ∃ p rest, sorted.drop k = p :: rest ∧ p.protected_flag = true) ∧
      (∀ p ∈ sorted.take k, ∀ q ∈ sorted.drop k, p.atime ≤ q.atime) := by
  obtain ⟨k, hk, heq, hall, hstop⟩ := gr_placements_delete_loop_spec
    (sorted.length - max_placements) sorted (by omega)
  refine ⟨k, hk, ?_, hall, hstop, ?_⟩
  · simp only [gr_check_limits_placements_pass, if_pos hover, heq]
  · have hp : List.Pairwise (fun a b => a.atime ≤ b.atime)
        (sorted.take k ++ sorted.drop k) := by
      rw [List.take_append_drop]
      exact hsorted
    exact fun p hp' q hq' => (List.pairwise_append.mp hp).2.2 p hp' q hq'

/-- Concrete placements for the C5 counterexample: the oldest placement
is protected, the newer one is not. -/
def c5P1 : ImagePlacement := ⟨1, 1, true, false, 0, 1, 1, 0, 0, 0, 0, false, 0, 0, false⟩

def c5P2 : ImagePlacement := ⟨2, 2, false, false, 0, 1, 1, 0, 0, 0, 0, false, 0, 0, false⟩

/-- C5 counterexample: two placements, maximum 1 (adjusted ceiling 1).
The oldest placement is protected, so the pass deletes nothing and the
count stays above the maximum even though the unprotected placement
`c5P2` was available for deletion — contradicting the claim that the
pass keeps deleting the smallest-atime unprotected placement until the
count is at most the maximum. -/
theorem C5_placements_pass_counterexample :
    gr_check_limits_placements_pass [c5P1, c5P2] 1 1 = ([], [c5P1, c5P2]) ∧
    (gr_check_limits_placements_pass [c5P1, c5P2] 1 1).2.length > 1 ∧
    c5P2.protected_flag = false ∧
    c5P2 ∈ (gr_check_limits_placements_pass [c5P1, c5P2] 1 1).2 := by
  exact ⟨by decide, by decide, by decide, by decide⟩

/-- C5 amended-theorem witness: with the protected placement second, the
pass deletes exactly the oldest unprotected placement. -/
theorem C5_placements_pass_witness :
    ([c5P1, c5P2].Pairwise (fun a b => a.atime ≤ b.atime)) ∧
    (∃ k, k ≤ [c5P1, c5P2].length - 1 ∧
      gr_check_limits_placements_pass [c5P1, c5P2] 1 1 =
        ([c5P1, c5P2].take k, [c5P1, c5P2].drop k) ∧
      (∀ p ∈ [c5P1, c5P2].take k, p.protected_flag = false) ∧
      (k = [c5P1, c5P2].length - 1 ∨
        ∃ p rest, [c5P1, c5P2].drop k = p :: rest ∧ p.protected_flag = true) ∧
      (∀ p ∈ [c5P1, c5P2].take k, ∀ q ∈ [c5P1, c5P2].drop k, p.atime ≤ q.atime)) :=
  ⟨by decide,
   C5_placements_pass [c5P1, c5P2] 1 1 (by decide) (by decide) (by decide)⟩

/-! ## The delete command

Mirrors `gr_deletion_callback` and `gr_handle_delete_command`
(graphics.c lines 2229-2305) together with `gr_delete_placement`
(lines 409-462).  The host grid is a list of placeholder cells passed to
`gr_for_each_image_cell`; the callback's truthy return asks the host to
erase the cell, so the model returns the list of erased cells. -/

/-- A placeholder cell of the host grid, as enumerated by
`gr_for_each_image_cell`. -/
structure GridCell where
  image_id : Nat
  placement_id : Nat
  col : Int
  row : Int
  is_classic : Bool
  deriving Repr, DecidableEq

/-- `DeletionData`. -/
structure DeletionData where
  image_id : Nat
  placement_id : Nat
  delete_image_if_no_ref : Bool
  deriving Repr, DecidableEq

/-- ASCII `isupper`. -/
def c_isupper (c : Char) : Bool := 'A' ≤ c && c ≤ 'Z'

/-- ASCII `tolower`. -/
def c_tolower (c : Char) : Char :=
  if c_isupper c then Char.ofNat (c.toNat + 32) else c

/-- `gr_delete_placement` applied to `gr_find_placement img id` for a
non-zero id: drop the placement from the image (freeing its scaled
buffer) and write the image back.  A missing placement is a no-op
(`gr_delete_placement(NULL)`).  Returns the state and the updated
image. -/
def gr_delete_placement_state (st : GrState) (img : Image) (placement_id : Nat) :
    GrState × Image :=
  match img.placements.find? (fun p => p.placement_id == placement_id) with
  | none => (st, img)
  | some p =>
    let ramDelta : Int := if p.scaled_image then gr_placement_ram_size p else 0
    let img := { img with
      placements := img.placements.filter (fun q => q.placement_id ≠ placement_id) }
    (gr_update_image
      { st with images_ram_size := st.images_ram_size - ramDelta,
                total_placement_count := st.total_placement_count - 1 } img,
     img)

/-- `gr_deletion_callback` (graphics.c lines 2238-2261). -/
def gr_deletion_callback (d : DeletionData) (st : GrState) (cell : GridCell) :
    GrState × Bool :=
  if cell.is_classic = false then (st, false)
  else if d.image_id ≠ 0 ∧ d.image_id ≠ cell.image_id then (st, false)
  else if d.placement_id ≠ 0 ∧ d.placement_id ≠ cell.placement_id then (st, false)
  else
    match gr_find_image st cell.image_id with
    | none => (st, true)
    | some img =>
      let pr := if cell.placement_id ≠ 0 then
          gr_delete_placement_state st img cell.placement_id
        else (st, img)
      let st := if d.delete_image_if_no_ref ∧ pr.2.placements.length = 0 then
          gr_delete_image_state pr.1 pr.2
        else pr.1
      (st, true)

/-- `gr_for_each_image_cell` with `gr_deletion_callback`: fold the
callback over the grid cells, collecting the cells the host erases. -/
def gr_for_each_image_cell (cells : List GridCell) (d : DeletionData)
    (st : GrState) : GrState × List GridCell :=
  cells.foldl (fun acc cell =>
    let pr := gr_deletion_callback d acc.1 cell
    (pr.1, if pr.2 then acc.2 ++ [cell] else acc.2)) (st, [])

/-- `gr_handle_delete_command` (graphics.c lines 2264-2305). -/
def gr_handle_delete_command (cells : List GridCell) (st : GrState)
    (res : GraphicsCommandResult) (cmd : GraphicsCommand) :
    GrState × GraphicsCommandResult × List GridCell :=
  let del0 : DeletionData := ⟨0, 0, c_isupper cmd.delete_specifier⟩
  let d := c_tolower cmd.delete_specifier
  -- `d=n`: resolve the image number, then proceed as `d=i`
  let step : Option (Char × DeletionData) :=
    if d = 'n' then
      match gr_find_image_by_number st cmd.image_number with
      | none => none
      | some img => some ('i', { del0 with image_id := img.image_id })
    else some (d, del0)
  match step with
  | none => (st, res, [])
  | some (d, del1) =>
    if d = '\x00' ∨ d = 'a' then
      match gr_for_each_image_cell cells del1 st with
      | (st, erased) => (st, res, erased)
    else if d = 'i' then
      let del2 := if del1.image_id = 0 then { del1 with image_id := cmd.image_id }
        else del1
      if del2.image_id = 0 then (st, res, [])
      else
        let del3 := { del2 with placement_id := cmd.placement_id }
        let st :=
          if del3.placement_id = 0 ∧ del3.delete_image_if_no_ref then
            match gr_find_image st cmd.image_id with
            | some img => gr_delete_image_state st img
            | none => st
          else st
        match gr_for_each_image_cell cells del3 st with
        | (st, erased) => (st, res, erased)
    else
      -- unsupported delete specifier: warning on stderr, command ignored
      (st, res, [])

/-- Updating an image record never makes an absent id appear. -/
lemma find_none_update (st : GrState) (img : Image) (id : Nat)
    (h : gr_find_image st id = none) :
    gr_find_image (gr_update_image st img) id = none := by
  unfold gr_find_image gr_update_image at *
  rw [List.find?_eq_none] at h ⊢
  intro x hx
  obtain ⟨y, hy, rfl⟩ := List.mem_map.mp hx
  by_cases hcase : y.image_id = img.image_id
  · have := h y hy
    simp only [if_pos hcase]
    simpa [← hcase] using this
  · simp only [if_neg hcase]
    exact h y hy

/-- Filtering the store never makes an absent id appear. -/
lemma find_none_delete_image (st : GrState) (img : Image) (id : Nat)
    (h : gr_find_image st id = none) :
    gr_find_image (gr_delete_image_state st img) id = none := by
  unfold gr_find_image gr_delete_image_state at *
  rw [List.find?_eq_none] at h ⊢
  intro x hx
  exact h x (List.mem_filter.mp hx).1

/-- The deletion callback never resurrects a deleted image id. -/
lemma find_none_callback (d : DeletionData) (st : GrState) (cell : GridCell)
    (id : Nat) (h : gr_find_image st id = none) :
    gr_find_image (gr_deletion_callback d st cell).1 id = none := by
  unfold gr_deletion_callback
  by_cases h1 : cell.is_classic = false
  · simpa [if_pos h1] using h
  · rw [if_neg h1]
    by_cases h2 : d.image_id ≠ 0 ∧ d.image_id ≠ cell.image_id
    · simpa [if_pos h2] using h
    · rw [if_neg h2]
      by_cases h3 : d.placement_id ≠ 0 ∧ d.placement_id ≠ cell.placement_id
      · simpa [if_pos h3] using h
      · rw [if_neg h3]
        cases hfind : gr_find_image st cell.image_id with
        | none => simpa using h
        | some img =>
          simp only []
          have hpr : gr_find_image (if cell.placement_id ≠ 0 then
              gr_delete_placement_state st img cell.placement_id
            else (st, img)).1 id = none := by
            by_cases hc : cell.placement_id ≠ 0
            · rw [if_pos hc]
              unfold gr_delete_placement_state
              cases img.placements.find? (fun p => p.placement_id == cell.placement_id) with
              | none => exact h
              | some p => exact find_none_update _ _ _ h
            · simpa [if_neg hc] using h
          by_cases hdel : d.delete_image_if_no_ref ∧ (if cell.placement_id ≠ 0 then
              gr_delete_placement_state st img cell.placement_id
            else (st, img)).2.placements.length = 0
          · rw [if_pos hdel]
            exact find_none_delete_image _ _ _ hpr
          · rw [if_neg hdel]
            exact hpr

/-- The whole cell scan never resurrects a deleted image id. -/
lemma find_none_for_each (cells : List GridCell) (d : DeletionData) :
    ∀ (acc : GrState × List GridCell), gr_find_image acc.1 id₀ = none →
    gr_find_image (cells.foldl (fun acc cell =>
      let pr := gr_deletion_callback d acc.1 cell
      (pr.1, if pr.2 then acc.2 ++ [cell] else acc.2)) acc).1 id₀ = none := by
  induction cells with
  | nil => intro acc h; exact h
  | cons c rest ih =>
    intro acc h
    exact ih _ (find_none_callback d acc.1 c id₀ h)

/-- Deleting a found image removes its id from the store. -/
lemma find_delete_image_self (st : GrState) (img : Image) (id : Nat)
    (h : gr_find_image st id = some img) :
    gr_find_image (gr_delete_image_state st img) id = none := by
  have hid' : img.image_id = id := by simpa using List.find?_some h
  unfold gr_find_image gr_delete_image_state
  rw [List.find?_eq_none]
  intro x hx
  have hne := (List.mem_filter.mp hx).2
  simp only [decide_eq_true_eq] at hne
  simp [hid' ▸ hne]

/-- C6 (amended; see the counterexample).  For an uppercase delete
specifier restricted to an image id (`d=I`, `i=` given) with no
placement id, the image record is deleted unconditionally — even when
placements of it remain — before the placeholder-cell scan runs. -/
theorem C6_delete_uppercase_unconditional (cells : List GridCell) (st : GrState)
    (res : GraphicsCommandResult) (cmd : GraphicsCommand)
    (hspec : cmd.delete_specifier = 'I')
    (hid : cmd.image_id ≠ 0)
    (hpid : cmd.placement_id = 0) :
    gr_find_image (gr_handle_delete_command cells st res cmd).1 cmd.image_id = none := by
  have hupper : c_isupper cmd.delete_specifier = true := by rw [hspec]; decide
  have hlower : c_tolower cmd.delete_specifier = 'i' := by rw [hspec]; decide
  simp only [gr_handle_delete_command, hlower, hupper]
  rw [if_neg (by decide : ¬('i' = 'n'))]
  simp only []
  rw [if_neg (by decide : ¬('i' = '\x00' ∨ 'i' = 'a'))]
  simp only [if_true, ite_true]
  rw [if_neg hid]
  rw [if_pos (show cmd.placement_id = 0 ∧ True from ⟨hpid, trivial⟩)]
  cases hf : gr_find_image st cmd.image_id with
  | none =>
    exact find_none_for_each cells _ (st, []) hf
  | some img =>
    exact find_none_for_each cells _ (gr_delete_image_state st img, [])
      (find_delete_image_self st img cmd.image_id hf)

/-- Concrete store for the C6 counterexample: image 7 still has a
(virtual) placement with id 3. -/
def c6Pl : ImagePlacement :=
  ⟨3, 0, false, true, SCALE_MODE_CONTAIN, 1, 1, 0, 0, 0, 0, false, 0, 0, false⟩

def c6Img : Image :=
  ⟨7, 0, 0, 0, 0, 0, 0, 0, 0, 2, 2, .ramLoadingSuccess, .noError, 0, false, false,
   [c6Pl], 3, 0⟩

def c6St : GrState := ⟨[c6Img], 0, 7, 1, 0, 0, 0, 10, 20, false⟩

def c6Cmd : GraphicsCommand :=
  { emptyCommand "a=d,d=I,i=7".data with
    action := 'd', delete_specifier := 'I', image_id := 7 }

/-- C6 counterexample: the image still has a placement, yet the
`d=I,i=7` delete command (no placement id) removes the image record —
contradicting the claim that the image is deleted only when no
placements remain. -/
theorem C6_delete_counterexample :
    c6Img.placements ≠ [] ∧
    gr_find_image c6St 7 = some c6Img ∧
    gr_find_image (gr_handle_delete_command [] c6St emptyResult c6Cmd).1 7 = none := by
  exact ⟨by decide, by decide, by decide⟩

/-- C6 amended-theorem witness at the concrete inputs. -/
theorem C6_delete_uppercase_unconditional_witness :
    c6Cmd.delete_specifier = 'I' ∧ c6Cmd.image_id ≠ 0 ∧ c6Cmd.placement_id = 0 ∧
    gr_find_image (gr_handle_delete_command [] c6St emptyResult c6Cmd).1
      c6Cmd.image_id = none :=
  ⟨by decide, by decide, by decide,
   C6_delete_uppercase_unconditional [] c6St emptyResult c6Cmd (by decide) (by decide)
     (by decide)⟩

/-! ### C10: the command tokenizer and dispatch (`gr_parse_command`)

`gr_set_keyvalue` and the key=value tokenizing loop of `gr_parse_command`
(graphics.c:2356-2574), with the command dispatcher `gr_handle_command`
abstracted into a parameter (the claim quantifies over what the
dispatcher could do).  Modelling notes:
* the `%s` arguments of the C error messages print from `key_start` to
  the terminating NUL of the buffer; the model passes the corresponding
  token slice instead — only the tail of the response text differs, and
  no claim inspects it;
* `strtol` range clamping to `LONG_MIN`/`LONG_MAX` is not modelled
  (values of that magnitude appear in no claim), and the `int` fields of
  `GraphicsCommand` keep the full parsed value instead of truncating to
  32 bits, as in the rest of this development;
* logging (`GR_LOG`, the debug response dump) has no effect on the
  state and is omitted. -/

/-- `isspace` of the C locale, as consumed by `strtol`. -/
def c_isspace (c : Char) : Bool :=
  c = ' ' || c = '\t' || c = '\n' || c = '\x0b' || c = '\x0c' || c = '\r'

/-- `strtol(value_start, &num_end, 10)` on the value slice: skip
whitespace, an optional sign, then decimal digits.  Returns the value
and the number of characters consumed (`num_end - value_start`); when no
digit follows, no conversion is performed and `num_end` stays at the
start (zero consumed). -/
def strtol10 (s : List Char) : Int × Nat :=
  let ws := (s.takeWhile c_isspace).length
  let rest := s.drop ws
  let signLen : Nat :=
    match rest with
    | '-' :: _ => 1
    | '+' :: _ => 1
    | _ => 0
  let neg : Bool :=
    match rest with
    | '-' :: _ => true
    | _ => false
  let ds := (rest.drop signLen).takeWhile Char.isDigit
  if ds.length = 0 then (0, 0)
  else
    let mag : Int := ds.foldl (fun acc c => acc * 10 + ((c.toNat : Int) - 48)) 0
    (if neg then -mag else mag, ws + signLen + ds.length)

/-- The key switch of `gr_set_keyvalue`.  `v0` is `*value_start` and
`num` the parsed integer (0 for the single-character keys, as in C).
`X`, `Y` and `z` only print a warning; an unknown key is an `EINVAL`
error. -/
def gr_key_switch (cmd : GraphicsCommand) (res : GraphicsCommandResult)
    (k v0 : Char) (num : Int) (key : List Char) :
    GraphicsCommand × GraphicsCommandResult :=
  if k = 'a' then ({ cmd with action := v0 }, res)
  else if k = 't' then ({ cmd with transmission_medium := v0 }, res)
  else if k = 'd' then ({ cmd with delete_specifier := v0 }, res)
  else if k = 'q' then ({ cmd with quiet := num }, res)
  else if k = 'f' then
    if num ≠ 0 ∧ num ≠ 24 ∧ num ≠ 32 ∧ num ≠ 100 then
      ({ cmd with format := num },
       gr_reporterror_cmd { cmd with format := num }
         ("EINVAL: unsupported format specification: ".data ++ key) res)
    else ({ cmd with format := num }, res)
  else if k = 'o' then
    if (v0.toNat : Int) ≠ 122 then
      ({ cmd with compression := (v0.toNat : Int) },
       gr_reporterror_cmd { cmd with compression := (v0.toNat : Int) }
         ("EINVAL: unsupported compression specification: ".data ++ key) res)
    else ({ cmd with compression := (v0.toNat : Int) }, res)
  else if k = 's' then ({ cmd with pix_width := num }, res)
  else if k = 'v' then ({ cmd with pix_height := num }, res)
  else if k = 'i' then ({ cmd with image_id := int_to_u32 num }, res)
  else if k = 'I' then ({ cmd with image_number := int_to_u32 num }, res)
  else if k = 'p' then ({ cmd with placement_id := int_to_u32 num }, res)
  else if k = 'x' then ({ cmd with src_pix_x := num }, res)
  else if k = 'y' then ({ cmd with src_pix_y := num }, res)
  else if k = 'w' then ({ cmd with src_pix_width := num }, res)
  else if k = 'h' then ({ cmd with src_pix_height := num }, res)
  else if k = 'c' then ({ cmd with columns := num }, res)
  else if k = 'r' then ({ cmd with rows := num }, res)
  else if k = 'm' then ({ cmd with is_data_transmission := true, more := num }, res)
  else if k = 'S' then ({ cmd with size := num }, res)
  else if k = 'U' then ({ cmd with virtual := num }, res)
  else if k = 'X' ∨ k = 'Y' ∨ k = 'z' then (cmd, res)
  else if k = 'C' then ({ cmd with do_not_move_cursor := num }, res)
  else (cmd, gr_reporterror_cmd cmd ("EINVAL: unsupported key: ".data ++ key) res)

/-- `gr_set_keyvalue`: all keys are one character; `a`, `t`, `d`, `o`
take a single-character value, every other key an integer value checked
to consume the whole value slice. -/
def gr_set_keyvalue (cmd : GraphicsCommand) (res : GraphicsCommandResult)
    (key value : List Char) : GraphicsCommand × GraphicsCommandResult :=
  match key with
  | [k] =>
    if k = 'a' ∨ k = 't' ∨ k = 'd' ∨ k = 'o' then
      if value.length ≠ 1 then
        (cmd, gr_reporterror_cmd cmd
          ("EINVAL: value of \x27a\x27, \x27t\x27 or \x27d\x27 must be a single char: ".data
            ++ key) res)
      else gr_key_switch cmd res k (value.headD '\x00') 0 key
    else
      if (strtol10 value).2 ≠ value.length then
        (cmd, gr_reporterror_cmd cmd
          ("EINVAL: could not parse number value: ".data ++ key) res)
      else gr_key_switch cmd res k (value.headD '\x00') (strtol10 value).1 key
  | _ =>
    (cmd, gr_reporterror_cmd cmd
      ("EINVAL: unknown key of length ".data ++ natChars key.length ++ ": ".data ++ key)
      res)

/-- `buf[i]` where the list holds `len` characters and `buf[len]` is the
terminating NUL. -/
def charAt (buf : List Char) (i : Nat) : Char := buf.getD i '\x00'

/-- The tokenizing loop of `gr_parse_command` over the buffer after the
leading `G`.  `i` is the cursor offset `c - buf`; `ks`, `ke`, `vs` are
the `key_start`, `key_end`, `val_start` offsets; `state` is 'k' (key),
'v' (value) or 'p' (payload).  On a key without value the error is
reported but `key_start` is left where it was, exactly as in C.  In
state 'p' the payload is the rest of the buffer and the loop breaks.
The fuel starts at `len + 1`; every iteration advances `i` by one and
the loop runs while `i < len + 1`, so fuel never reaches 0. -/
def gr_parse_loop (buf : List Char) :
    Nat → Nat → Nat → Nat → Nat → Char → GraphicsCommand → GraphicsCommandResult →
    GraphicsCommand × GraphicsCommandResult
  | 0, _, _, _, _, _, cmd, res => (cmd, res)
  | fuel + 1, i, ks, ke, vs, state, cmd, res =>
    if buf.length + 1 ≤ i then (cmd, res)
    else if state = 'k' then
      if charAt buf i = ',' ∨ charAt buf i = ';' ∨ charAt buf i = '\x00' then
        gr_parse_loop buf fuel (i + 1) ks i vs
          (if charAt buf i = ',' then 'k' else 'p') cmd
          (gr_reporterror_cmd cmd
            ("EINVAL: key without value: ".data ++ (buf.drop ks).take (i - ks) ++ [' '])
            res)
      else if charAt buf i = '=' then
        gr_parse_loop buf fuel (i + 1) ks i (i + 1) 'v' cmd res
      else
        gr_parse_loop buf fuel (i + 1) ks ke vs 'k' cmd res
    else if state = 'v' then
      if charAt buf i = ',' ∨ charAt buf i = ';' ∨ charAt buf i = '\x00' then
        gr_parse_loop buf fuel (i + 1) (i + 1) ke vs
          (if charAt buf i = ',' then 'k' else 'p')
          (gr_set_keyvalue cmd res ((buf.drop ks).take (ke - ks))
            ((buf.drop vs).take (i - vs))).1
          (gr_set_keyvalue cmd res ((buf.drop ks).take (ke - ks))
            ((buf.drop vs).take (i - vs))).2
      else
        gr_parse_loop buf fuel (i + 1) ks ke vs 'v' cmd res
    else
      ({ cmd with payload := (buf.drop i).map Char.toNat }, res)

/-- `gr_parse_command`, parametrized by the command dispatcher
(`gr_handle_command`), which may update the command record (C mutates it
through the pointer), the global state and the result.  Returns the C
return value together with the final state and result.  A buffer not
starting with `G` returns 0 and touches nothing (the result global keeps
its previous value `res0`).  The final block clears the response when
the command was quiet (always at quiet ≥ 2, on success at quiet 1). -/
def gr_parse_command
    (handle : GraphicsCommand → GrState → GraphicsCommandResult →
      GraphicsCommand × GrState × GraphicsCommandResult)
    (st : GrState) (res0 : GraphicsCommandResult) (buf : List Char) :
    Int × GrState × GraphicsCommandResult :=
  if charAt buf 0 ≠ 'G' then (0, st, res0)
  else
    let st := { st with global_command_counter := st.global_command_counter + 1 }
    let pr := gr_parse_loop buf.tail (buf.tail.length + 1) 0 0 0 0 'k'
        (emptyCommand buf.tail) emptyResult
    let hr := if pr.2.error = false then handle pr.1 st pr.2 else (pr.1, st, pr.2)
    let res := if hr.1.quiet ≠ 0 then
        (if hr.2.2.error = false ∨ 2 ≤ hr.1.quiet then { hr.2.2 with response := [] }
         else hr.2.2)
      else hr.2.2
    (1, hr.2.1, res)

/-- `res'` is reachable from `res` by response-building steps: the
placeholder and redraw fields are untouched and the error flag can only
be set, never cleared. -/
def ResChain (res res' : GraphicsCommandResult) : Prop :=
  (res'.create_placeholder = res.create_placeholder ∧ res'.redraw = res.redraw) ∧
  (res'.error = res.error ∨ res'.error = true)

theorem resChain_refl (res : GraphicsCommandResult) : ResChain res res :=
  ⟨⟨rfl, rfl⟩, Or.inl rfl⟩

theorem resChain_trans {a b c : GraphicsCommandResult} :
    ResChain a b → ResChain b c → ResChain a c := by
  rintro ⟨⟨h1, h2⟩, h3⟩ ⟨⟨g1, g2⟩, g3⟩
  refine ⟨⟨g1.trans h1, g2.trans h2⟩, ?_⟩
  rcases g3 with g3 | g3
  · rw [g3]; exact h3
  · exact Or.inr g3

theorem reporterror_cmd_chain (cmd : GraphicsCommand) (msg : List Char)
    (res : GraphicsCommandResult) : ResChain res (gr_reporterror_cmd cmd msg res) := by
  simp only [ResChain, gr_reporterror_cmd, gr_createresponse]
  split_ifs <;> simp

theorem key_switch_chain (cmd : GraphicsCommand) (res : GraphicsCommandResult)
    (k v0 : Char) (num : Int) (key : List Char) :
    ResChain res (gr_key_switch cmd res k v0 num key).2 := by
  unfold gr_key_switch
  by_cases h1 : k = 'a'
  · rw [if_pos h1]; exact resChain_refl res
  rw [if_neg h1]
  by_cases h2 : k = 't'
  · rw [if_pos h2]; exact resChain_refl res
  rw [if_neg h2]
  by_cases h3 : k = 'd'
  · rw [if_pos h3]; exact resChain_refl res
  rw [if_neg h3]
  by_cases h4 : k = 'q'
  · rw [if_pos h4]; exact resChain_refl res
  rw [if_neg h4]
  by_cases h5 : k = 'f'
  · rw [if_pos h5]
    by_cases hf : num ≠ 0 ∧ num ≠ 24 ∧ num ≠ 32 ∧ num ≠ 100
    · rw [if_pos hf]; exact reporterror_cmd_chain _ _ _
    · rw [if_neg hf]; exact resChain_refl res
  rw [if_neg h5]
  by_cases h6 : k = 'o'
  · rw [if_pos h6]
    by_cases ho : (v0.toNat : Int) ≠ 122
    · rw [if_pos ho]; exact reporterror_cmd_chain _ _ _
    · rw [if_neg ho]; exact resChain_refl res
  rw [if_neg h6]
  by_cases h7 : k = 's'
  · rw [if_pos h7]; exact resChain_refl res
  rw [if_neg h7]
  by_cases h8 : k = 'v'
  · rw [if_pos h8]; exact resChain_refl res
  rw [if_neg h8]
  by_cases h9 : k = 'i'
  · rw [if_pos h9]; exact resChain_refl res
  rw [if_neg h9]
  by_cases h10 : k = 'I'
  · rw [if_pos h10]; exact resChain_refl res
  rw [if_neg h10]
  by_cases h11 : k = 'p'
  · rw [if_pos h11]; exact resChain_refl res
  rw [if_neg h11]
  by_cases h12 : k = 'x'
  · rw [if_pos h12]; exact resChain_refl res
  rw [if_neg h12]
  by_cases h13 : k = 'y'
  · rw [if_pos h13]; exact resChain_refl res
  rw [if_neg h13]
  by_cases h14 : k = 'w'
  · rw [if_pos h14]; exact resChain_refl res
  rw [if_neg h14]
  by_cases h15 : k = 'h'
  · rw [if_pos h15]; exact resChain_refl res
  rw [if_neg h15]
  by_cases h16 : k = 'c'
  · rw [if_pos h16]; exact resChain_refl res
  rw [if_neg h16]
  by_cases h17 : k = 'r'
  · rw [if_pos h17]; exact resChain_refl res
  rw [if_neg h17]
  by_cases h18 : k = 'm'
  · rw [if_pos h18]; exact resChain_refl res
  rw [if_neg h18]
  by_cases h19 : k = 'S'
  · rw [if_pos h19]; exact resChain_refl res
  rw [if_neg h19]
  by_cases h20 : k = 'U'
  · rw [if_pos h20]; exact resChain_refl res
  rw [if_neg h20]
  by_cases h21 : k = 'X' ∨ k = 'Y' ∨ k = 'z'
  · rw [if_pos h21]; exact resChain_refl res
  rw [if_neg h21]
  by_cases h22 : k = 'C'
  · rw [if_pos h22]; exact resChain_refl res
  rw [if_neg h22]
  exact reporterror_cmd_chain _ _ _

theorem set_keyvalue_chain (cmd : GraphicsCommand) (res : GraphicsCommandResult)
    (key value : List Char) : ResChain res (gr_set_keyvalue cmd res key value).2 := by
  rcases key with _ | ⟨k, _ | ⟨k2, ks⟩⟩
  · exact reporterror_cmd_chain _ _ _
  · simp only [gr_set_keyvalue]
    repeat' first
      | exact key_switch_chain _ _ _ _ _ _
      | exact reporterror_cmd_chain _ _ _
      | split
  · exact reporterror_cmd_chain _ _ _

theorem parse_loop_chain (buf : List Char) :
    ∀ (fuel i ks ke vs : Nat) (state : Char) (cmd : GraphicsCommand)
      (res : GraphicsCommandResult),
      ResChain res (gr_parse_loop buf fuel i ks ke vs state cmd res).2 := by
  intro fuel
  induction fuel with
  | zero => intro i ks ke vs state cmd res; exact resChain_refl res
  | succ n ih =>
    intro i ks ke vs state cmd res
    simp only [gr_parse_loop]
    repeat' first
      | exact resChain_refl res
      | exact ih _ _ _ _ _ _ _
      | exact resChain_trans (reporterror_cmd_chain _ _ _) (ih _ _ _ _ _ _ _)
      | exact resChain_trans (set_keyvalue_chain _ _ _ _) (ih _ _ _ _ _ _ _)
      | split

/-- C10: when the tokenizing loop flags an error, `gr_parse_command`
still returns 1, produces the same final state and result for every
dispatcher (the dispatcher is never invoked), changes the state only by
the global command stamp — which is incremented for every command,
well-formed or not — and records only an error: the error flag is set
and no placeholder creation or redraw is requested. -/
theorem C10_parse_error_no_dispatch (st : GrState) (res0 : GraphicsCommandResult)
    (buf : List Char) (hG : charAt buf 0 = 'G')
    (herr : (gr_parse_loop buf.tail (buf.tail.length + 1) 0 0 0 0 'k'
      (emptyCommand buf.tail) emptyResult).2.error = true) :
    ∃ res' : GraphicsCommandResult,
      (∀ handle, gr_parse_command handle st res0 buf =
        (1, { st with global_command_counter := st.global_command_counter + 1 }, res')) ∧
      res'.error = true ∧ res'.create_placeholder = false ∧ res'.redraw = false := by
  have hchain : ResChain emptyResult (gr_parse_loop buf.tail (buf.tail.length + 1)
      0 0 0 0 'k' (emptyCommand buf.tail) emptyResult).2 :=
    parse_loop_chain buf.tail (buf.tail.length + 1) 0 0 0 0 'k' _ _
  set pr := gr_parse_loop buf.tail (buf.tail.length + 1) 0 0 0 0 'k'
      (emptyCommand buf.tail) emptyResult with hpr
  refine ⟨if pr.1.quiet ≠ 0 then
      (if pr.2.error = false ∨ 2 ≤ pr.1.quiet then { pr.2 with response := [] }
       else pr.2)
    else pr.2, fun handle => ?_, ?_, ?_, ?_⟩
  · simp only [gr_parse_command]
    rw [if_neg (fun h => h hG), ← hpr]
    rw [if_neg (by simp [herr] : ¬(pr.2.error = false))]
  · split_ifs <;> exact herr
  · split_ifs <;> exact hchain.1.1
  · split_ifs <;> exact hchain.1.2

def c10St : GrState := ⟨[], 0, 0, 0, 0, 0, 5, 10, 20, false⟩

def c10Handle : GraphicsCommand → GrState → GraphicsCommandResult →
    GraphicsCommand × GrState × GraphicsCommandResult :=
  fun cmd st res => (cmd, st, res)

/-- C10 counterexample to the parenthetical "state unchanged on parse
error": the buffer `Ga` fails to parse (key `a` without a value), yet
the state after `gr_parse_command` differs from the state before — the
global command counter is incremented for every command. -/
theorem C10_parse_counterexample :
    (gr_parse_loop "Ga".data.tail ("Ga".data.tail.length + 1) 0 0 0 0 'k'
      (emptyCommand "Ga".data.tail) emptyResult).2.error = true ∧
    (gr_parse_command c10Handle c10St emptyResult "Ga".data).2.1 ≠ c10St := by
  exact ⟨by decide, by decide⟩

/-- C10 theorem witness at the concrete erroring buffer `Ga`. -/
theorem C10_parse_error_no_dispatch_witness :
    charAt "Ga".data 0 = 'G' ∧
    (gr_parse_loop "Ga".data.tail ("Ga".data.tail.length + 1) 0 0 0 0 'k'
      (emptyCommand "Ga".data.tail) emptyResult).2.error = true ∧
    ∃ res' : GraphicsCommandResult,
      (∀ handle, gr_parse_command handle c10St emptyResult "Ga".data =
        (1, { c10St with global_command_counter := c10St.global_command_counter + 1 },
         res')) ∧
      res'.error = true ∧ res'.create_placeholder = false ∧ res'.redraw = false :=
  ⟨by decide, by decide,
   C10_parse_error_no_dispatch c10St emptyResult "Ga".data (by decide) (by decide)⟩

end StGraphics
